import Mathlib

/-!
Shallow embedding of the event-sourced organization-domain core of the
cim-domain-organization repository, together with proofs about its
command handling, event application, status state machine, reporting-cycle
detection, location invariants and repository load/save paths.

The embedding follows the canonical aggregate in src/aggregate.rs (the
repository contains several divergent drafts of the same aggregate; the
claims cite src/aggregate.rs, src/infrastructure/persistence.rs and
src/handlers/command_handler.rs, which are the files embedded here).

Modelling conventions:
- Uuid values and timestamps are modelled as natural numbers; the
  effectful generators (Uuid::now_v7, EntityId::new, Utc::now) are passed
  in explicitly through a FreshCtx record.
- Rust HashMap is modelled as an association list with key-replacing
  insert; the claims proved do not depend on hash-iteration order.
- The aggregate version field (u64) is modelled as Nat; the sources never
  approach wrap-around, which in Rust debug builds would panic rather
  than wrap.
-/

namespace OrgDomain

/-- Model of uuid::Uuid: an opaque identifier. -/
abbrev Uuid := Nat

/-- Model of chrono::DateTime of Utc: an opaque instant. -/
abbrev Timestamp := Nat

/-- Model of cim_domain::MessageIdentity (correlation/causation identity),
treated as opaque data that commands carry and events copy. -/
abbrev MessageIdentity := Nat

/-- Model of serde_json::Value metadata, treated as opaque data. -/
abbrev JsonValue := String

/-- Model of cim_domain::EntityId of Organization (a wrapper around Uuid). -/
abbrev OrgId := Uuid

/-- Model of cim_domain::EntityId of Department. -/
abbrev DeptId := Uuid

/-- Model of cim_domain::EntityId of Team. -/
abbrev TeamId := Uuid

/-- Model of cim_domain::EntityId of Role. -/
abbrev RoleId := Uuid

/-- Association-list model of std::collections::HashMap. -/
abbrev AssocMap (κ α : Type) := List (κ × α)

/-- Lookup in the association map (HashMap::get). -/
def AssocMap.find [DecidableEq κ] : AssocMap κ α → κ → Option α
  | [], _ => none
  | (k', v) :: rest, k => if k' = k then some v else AssocMap.find rest k

/-- Key membership (HashMap::contains_key). -/
def AssocMap.hasKey [DecidableEq κ] (m : AssocMap κ α) (k : κ) : Bool :=
  (AssocMap.find m k).isSome

/-- Insert-or-replace (HashMap::insert). -/
def AssocMap.insert [DecidableEq κ] : AssocMap κ α → κ → α → AssocMap κ α
  | [], k, v => [(k, v)]
  | (k', v') :: rest, k, v =>
    if k' = k then (k, v) :: rest else (k', v') :: AssocMap.insert rest k v

/-- Key removal (HashMap::remove, discarding the returned value). -/
def AssocMap.erase [DecidableEq κ] : AssocMap κ α → κ → AssocMap κ α
  | [], _ => []
  | (k', v') :: rest, k =>
    if k' = k then AssocMap.erase rest k else (k', v') :: AssocMap.erase rest k

/-- Keys of the map. -/
def AssocMap.keyList (m : AssocMap κ α) : List κ := m.map (·.1)

/-- Organization status, from src/entity.rs (the variant set the canonical
aggregate in src/aggregate.rs matches on). -/
inductive OrganizationStatus
  | Pending
  | Active
  | Inactive
  | Suspended
  | Dissolved
  | Merged
deriving DecidableEq, Repr

/-- Debug-format name of a status, used in error messages
(mirrors the Rust Debug derive). -/
def OrganizationStatus.debugName : OrganizationStatus → String
  | .Pending => "Pending"
  | .Active => "Active"
  | .Inactive => "Inactive"
  | .Suspended => "Suspended"
  | .Dissolved => "Dissolved"
  | .Merged => "Merged"

/-- Organization type, from src/entity.rs. -/
inductive OrganizationType
  | Corporation
  | NonProfit
  | Government
  | Partnership
  | SoleProprietorship
  | Cooperative
  | LLC
  | Other (s : String)
deriving DecidableEq, Repr

/-- Department status, from src/entity.rs. -/
inductive DepartmentStatus
  | Active
  | Inactive
  | Restructuring
  | Dissolved
deriving DecidableEq, Repr

/-- Team type, from src/entity.rs. -/
inductive TeamType
  | Permanent
  | Project
  | CrossFunctional
  | Virtual
  | SelfManaged
  | TaskForce
deriving DecidableEq, Repr

/-- Team status, from src/entity.rs. -/
inductive TeamStatus
  | Forming
  | Active
  | OnHold
  | Disbanding
  | Disbanded
deriving DecidableEq, Repr

/-- Role type, from src/entity.rs. -/
inductive RoleType
  | Executive
  | Management
  | Technical
  | Administrative
  | Operational
  | Support
  | Contractor
  | Intern
deriving DecidableEq, Repr

/-- Role status, from src/entity.rs. -/
inductive RoleStatus
  | Active
  | Vacant
  | Deprecated
  | Frozen
deriving DecidableEq, Repr

/-- Merger type, from src/events.rs. -/
inductive MergerType
  | Acquisition
  | Merger
  | Consolidation
  | Absorption
deriving DecidableEq, Repr

/-- Department restructure type, from src/events.rs. -/
inductive RestructureType
  | Promotion
  | Demotion
  | Transfer
  | Split
  | Merge
deriving DecidableEq, Repr

/-- Role seniority level, from src/aggregate.rs. -/
inductive RoleLevel
  | Executive
  | Senior
  | Mid
  | Junior
  | Intern
deriving DecidableEq, Repr

/-- Member role record, from src/aggregate.rs (struct OrganizationRole). -/
structure OrganizationRole where
  title : String
  level : RoleLevel
  reports_to : Option Uuid
deriving DecidableEq, Repr

/-- Organization entity record, from src/entity.rs (struct Organization). -/
structure Organization where
  id : OrgId
  name : String
  display_name : String
  description : Option String
  parent_id : Option (OrgId)
  organization_type : OrganizationType
  status : OrganizationStatus
  founded_date : Option Timestamp
  metadata : JsonValue
  created_at : Timestamp
  updated_at : Timestamp
deriving DecidableEq, Repr

/-- Department entity record, from src/entity.rs. -/
structure Department where
  id : DeptId
  organization_id : OrgId
  parent_department_id : Option (DeptId)
  name : String
  code : String
  description : Option String
  head_role_id : Option Uuid
  status : DepartmentStatus
  created_at : Timestamp
  updated_at : Timestamp
deriving DecidableEq, Repr

/-- Team entity record, from src/entity.rs. -/
structure Team where
  id : TeamId
  organization_id : OrgId
  department_id : Option (DeptId)
  name : String
  description : Option String
  team_type : TeamType
  lead_role_id : Option Uuid
  max_members : Option Nat
  status : TeamStatus
  created_at : Timestamp
  updated_at : Timestamp
deriving DecidableEq, Repr

/-- Role entity record, from src/entity.rs. -/
structure Role where
  id : RoleId
  organization_id : OrgId
  department_id : Option (DeptId)
  team_id : Option (TeamId)
  title : String
  code : String
  description : Option String
  role_type : RoleType
  level : Option Nat
  reports_to : Option (RoleId)
  permissions : List String
  responsibilities : List String
  status : RoleStatus
  created_at : Timestamp
  updated_at : Timestamp
deriving DecidableEq, Repr

/-- Organization member record, from src/aggregate.rs. -/
structure OrganizationMember where
  id : Uuid
  person_id : Uuid
  role : OrganizationRole
  department_id : Option Uuid
  joined_at : Timestamp
deriving DecidableEq, Repr

/-- Organization location record, from src/aggregate.rs. -/
structure OrganizationLocation where
  id : Uuid
  name : String
  address : String
  is_primary : Bool
deriving DecidableEq, Repr

/-- Child organization record, from src/aggregate.rs. -/
structure ChildOrganization where
  id : Uuid
  name : String
  org_type : OrganizationType
  added_at : Timestamp
deriving DecidableEq, Repr

/-- Domain error type from src/lib.rs (enum OrganizationError).
The EntityNotFound variant is the one src/infrastructure/persistence.rs
raises; the DomainError payload is modelled as its rendered message. -/
inductive OrganizationError
  | OrganizationNotFound (id : Uuid)
  | DepartmentNotFound (id : Uuid)
  | TeamNotFound (id : Uuid)
  | InvalidStructure (msg : String)
  | DuplicateEntity (msg : String)
  | CircularReference (msg : String)
  | EntityNotFound (msg : String)
  | DomainError (msg : String)
deriving DecidableEq, Repr

/-- Field-change set carried by the OrganizationUpdated event
(struct OrganizationChanges in src/events.rs as used by src/aggregate.rs). -/
structure OrganizationChanges where
  name : Option String
  display_name : Option String
  description : Option String
  status : Option OrganizationStatus
  metadata : Option JsonValue
deriving DecidableEq, Repr

/-- Field-change set carried by DepartmentUpdated. -/
structure DepartmentChanges where
  name : Option String
  code : Option String
  description : Option String
  head_role_id : Option RoleId
  status : Option DepartmentStatus
deriving DecidableEq, Repr

/-- Field-change set carried by TeamUpdated. -/
structure TeamChanges where
  name : Option String
  description : Option String
  lead_role_id : Option RoleId
  max_members : Option Nat
  status : Option TeamStatus
deriving DecidableEq, Repr

/-- Field-change set carried by RoleUpdated. -/
structure RoleChanges where
  title : Option String
  description : Option String
  level : Option Nat
  reports_to : Option RoleId
  permissions : Option (List String)
  responsibilities : Option (List String)
  status : Option RoleStatus
deriving DecidableEq, Repr

/-- Event payload: organization created. -/
structure OrganizationCreated where
  event_id : Uuid
  identity : MessageIdentity
  organization_id : OrgId
  name : String
  display_name : String
  organization_type : OrganizationType
  parent_id : Option OrgId
  metadata : JsonValue
  occurred_at : Timestamp
deriving DecidableEq, Repr

/-- Event payload: organization fields updated. -/
structure OrganizationUpdated where
  event_id : Uuid
  identity : MessageIdentity
  organization_id : OrgId
  changes : OrganizationChanges
  occurred_at : Timestamp
deriving DecidableEq, Repr

/-- Event payload: organization dissolved. -/
structure OrganizationDissolved where
  event_id : Uuid
  identity : MessageIdentity
  organization_id : OrgId
  reason : String
  effective_date : Timestamp
  occurred_at : Timestamp
deriving DecidableEq, Repr

/-- Event payload: organizations merged. -/
structure OrganizationMerged where
  event_id : Uuid
  identity : MessageIdentity
  surviving_organization_id : OrgId
  merged_organization_id : OrgId
  merger_type : MergerType
  effective_date : Timestamp
  occurred_at : Timestamp
deriving DecidableEq, Repr

/-- Event payload: organization status changed. -/
structure OrganizationStatusChanged where
  event_id : Uuid
  identity : MessageIdentity
  organization_id : OrgId
  new_status : OrganizationStatus
  previous_status : OrganizationStatus
  reason : Option String
  occurred_at : Timestamp
deriving DecidableEq, Repr

/-- Event payload: department created. -/
structure DepartmentCreated where
  event_id : Uuid
  identity : MessageIdentity
  department_id : DeptId
  organization_id : OrgId
  parent_department_id : Option DeptId
  name : String
  code : String
  occurred_at : Timestamp
deriving DecidableEq, Repr

/-- Event payload: department updated. -/
structure DepartmentUpdated where
  event_id : Uuid
  identity : MessageIdentity
  department_id : DeptId
  organization_id : OrgId
  changes : DepartmentChanges
  occurred_at : Timestamp
deriving DecidableEq, Repr

/-- Event payload: department restructured. -/
structure DepartmentRestructured where
  event_id : Uuid
  identity : MessageIdentity
  department_id : DeptId
  organization_id : OrgId
  new_parent_id : Option DeptId
  restructure_type : RestructureType
  occurred_at : Timestamp
deriving DecidableEq, Repr

/-- Event payload: department dissolved. -/
structure DepartmentDissolved where
  event_id : Uuid
  identity : MessageIdentity
  department_id : DeptId
  organization_id : OrgId
  reason : String
  transfer_to : Option DeptId
  occurred_at : Timestamp
deriving DecidableEq, Repr

/-- Event payload: team formed. -/
structure TeamFormed where
  event_id : Uuid
  identity : MessageIdentity
  team_id : TeamId
  organization_id : OrgId
  department_id : Option DeptId
  name : String
  team_type : TeamType
  occurred_at : Timestamp
deriving DecidableEq, Repr

/-- Event payload: team updated. -/
structure TeamUpdated where
  event_id : Uuid
  identity : MessageIdentity
  team_id : TeamId
  organization_id : OrgId
  changes : TeamChanges
  occurred_at : Timestamp
deriving DecidableEq, Repr

/-- Event payload: team disbanded. -/
structure TeamDisbanded where
  event_id : Uuid
  identity : MessageIdentity
  team_id : TeamId
  organization_id : OrgId
  reason : String
  members_transferred_to : Option TeamId
  occurred_at : Timestamp
deriving DecidableEq, Repr

/-- Event payload: role created. -/
structure RoleCreated where
  event_id : Uuid
  identity : MessageIdentity
  role_id : RoleId
  organization_id : OrgId
  department_id : Option DeptId
  team_id : Option TeamId
  title : String
  code : String
  role_type : RoleType
  occurred_at : Timestamp
deriving DecidableEq, Repr

/-- Event payload: role updated. -/
structure RoleUpdated where
  event_id : Uuid
  identity : MessageIdentity
  role_id : RoleId
  organization_id : OrgId
  changes : RoleChanges
  occurred_at : Timestamp
deriving DecidableEq, Repr

/-- Event payload: role assigned to a person. -/
structure RoleAssigned where
  event_id : Uuid
  identity : MessageIdentity
  role_id : RoleId
  organization_id : OrgId
  person_id : Uuid
  effective_date : Timestamp
  occurred_at : Timestamp
deriving DecidableEq, Repr

/-- Event payload: role vacated. -/
structure RoleVacated where
  event_id : Uuid
  identity : MessageIdentity
  role_id : RoleId
  organization_id : OrgId
  vacated_by : Uuid
  reason : String
  effective_date : Timestamp
  occurred_at : Timestamp
deriving DecidableEq, Repr

/-- Event payload: role deprecated. -/
structure RoleDeprecated where
  event_id : Uuid
  identity : MessageIdentity
  role_id : RoleId
  organization_id : OrgId
  reason : String
  replacement_role_id : Option RoleId
  effective_date : Timestamp
  occurred_at : Timestamp
deriving DecidableEq, Repr

/-- Event payload: member added. -/
structure MemberAdded where
  event_id : Uuid
  identity : MessageIdentity
  organization_id : OrgId
  person_id : Uuid
  role : OrganizationRole
  department_id : Option Uuid
  occurred_at : Timestamp
deriving DecidableEq, Repr

/-- Event payload: member role updated. -/
structure MemberRoleUpdated where
  event_id : Uuid
  identity : MessageIdentity
  organization_id : OrgId
  person_id : Uuid
  new_role : OrganizationRole
  previous_role : OrganizationRole
  occurred_at : Timestamp
deriving DecidableEq, Repr

/-- Event payload: member removed. -/
structure MemberRemoved where
  event_id : Uuid
  identity : MessageIdentity
  organization_id : OrgId
  person_id : Uuid
  reason : Option String
  occurred_at : Timestamp
deriving DecidableEq, Repr

/-- Event payload: reporting relationship changed. -/
structure ReportingRelationshipChanged where
  event_id : Uuid
  identity : MessageIdentity
  organization_id : OrgId
  person_id : Uuid
  new_manager_id : Option Uuid
  previous_manager_id : Option Uuid
  occurred_at : Timestamp
deriving DecidableEq, Repr

/-- Event payload: location added. -/
structure LocationAdded where
  event_id : Uuid
  identity : MessageIdentity
  organization_id : OrgId
  location_id : Uuid
  name : String
  address : String
  is_primary : Bool
  occurred_at : Timestamp
deriving DecidableEq, Repr

/-- Event payload: primary location changed. -/
structure PrimaryLocationChanged where
  event_id : Uuid
  identity : MessageIdentity
  organization_id : OrgId
  new_primary_location_id : Uuid
  previous_primary_location_id : Option Uuid
  occurred_at : Timestamp
deriving DecidableEq, Repr

/-- Event payload: location removed. -/
structure LocationRemoved where
  event_id : Uuid
  identity : MessageIdentity
  organization_id : OrgId
  location_id : Uuid
  occurred_at : Timestamp
deriving DecidableEq, Repr

/-- Event payload: child organization added. -/
structure ChildOrganizationAdded where
  event_id : Uuid
  identity : MessageIdentity
  parent_organization_id : OrgId
  child_organization_id : Uuid
  child_name : String
  child_type : OrganizationType
  occurred_at : Timestamp
deriving DecidableEq, Repr

/-- Event payload: child organization removed. -/
structure ChildOrganizationRemoved where
  event_id : Uuid
  identity : MessageIdentity
  parent_organization_id : OrgId
  child_organization_id : Uuid
  occurred_at : Timestamp
deriving DecidableEq, Repr

/-- Organization domain event union, with the variants that the canonical
aggregate in src/aggregate.rs constructs and applies. -/
inductive OrganizationEvent
  | OrganizationCreated (e : OrganizationCreated)
  | OrganizationUpdated (e : OrganizationUpdated)
  | OrganizationDissolved (e : OrganizationDissolved)
  | OrganizationMerged (e : OrganizationMerged)
  | OrganizationStatusChanged (e : OrganizationStatusChanged)
  | DepartmentCreated (e : DepartmentCreated)
  | DepartmentUpdated (e : DepartmentUpdated)
  | DepartmentRestructured (e : DepartmentRestructured)
  | DepartmentDissolved (e : DepartmentDissolved)
  | TeamFormed (e : TeamFormed)
  | TeamUpdated (e : TeamUpdated)
  | TeamDisbanded (e : TeamDisbanded)
  | RoleCreated (e : RoleCreated)
  | RoleUpdated (e : RoleUpdated)
  | RoleAssigned (e : RoleAssigned)
  | RoleVacated (e : RoleVacated)
  | RoleDeprecated (e : RoleDeprecated)
  | MemberAdded (e : MemberAdded)
  | MemberRoleUpdated (e : MemberRoleUpdated)
  | MemberRemoved (e : MemberRemoved)
  | ReportingRelationshipChanged (e : ReportingRelationshipChanged)
  | LocationAdded (e : LocationAdded)
  | PrimaryLocationChanged (e : PrimaryLocationChanged)
  | LocationRemoved (e : LocationRemoved)
  | ChildOrganizationAdded (e : ChildOrganizationAdded)
  | ChildOrganizationRemoved (e : ChildOrganizationRemoved)
deriving DecidableEq, Repr

/-- Organization aggregate state, from src/aggregate.rs
(struct OrganizationAggregate). -/
structure OrganizationAggregate where
  id : Uuid
  name : String
  org_type : OrganizationType
  status : OrganizationStatus
  members : AssocMap Uuid OrganizationMember
  locations : AssocMap Uuid OrganizationLocation
  child_organizations : AssocMap Uuid ChildOrganization
  organization : Option Organization
  departments : AssocMap DeptId Department
  teams : AssocMap TeamId Team
  roles : AssocMap RoleId Role
  version : Nat
deriving DecidableEq, Repr

namespace OrganizationAggregate

/-- Empty aggregate (OrganizationAggregate::empty). The Rust code draws the
id from Uuid::now_v7(); that generated value is passed in as fresh_id. -/
def empty (fresh_id : Uuid) : OrganizationAggregate where
  id := fresh_id
  name := ""
  org_type := .Corporation
  status := .Pending
  members := []
  locations := []
  child_organizations := []
  organization := none
  departments := []
  teams := []
  roles := []
  version := 0

/-- New aggregate with organization details (OrganizationAggregate::new).
The Utc::now() timestamp is passed in as now. -/
def new (now : Timestamp) (id : Uuid) (name : String)
    (org_type : OrganizationType) : OrganizationAggregate where
  id := id
  name := name
  org_type := org_type
  status := .Pending
  members := []
  locations := []
  child_organizations := []
  organization := some
    { id := id
      name := name
      display_name := name
      description := none
      parent_id := none
      organization_type := org_type
      status := .Pending
      founded_date := none
      metadata := ""
      created_at := now
      updated_at := now }
  departments := []
  teams := []
  roles := []
  version := 0

/-- Pure event application (OrganizationAggregate::apply_event_pure).
The Rust signature returns OrganizationResult, but every arm returns Ok;
the embedding returns the Ok payload directly. Unhandled event variants
fall through to the identity on all fields, and the version is incremented
unconditionally as the last step. -/
def apply_event_pure (self : OrganizationAggregate)
    (event : OrganizationEvent) : OrganizationAggregate :=
  let new_aggregate : OrganizationAggregate :=
    match event with
    | .OrganizationCreated e =>
      let org : Organization :=
        { id := e.organization_id
          name := e.name
          display_name := e.display_name
          description := none
          parent_id := e.parent_id
          organization_type := e.organization_type
          status := .Active
          founded_date := none
          metadata := e.metadata
          created_at := e.occurred_at
          updated_at := e.occurred_at }
      { self with organization := some org, status := .Active }
    | .OrganizationUpdated e =>
      match self.organization with
      | some org =>
        let org := { org with name := e.changes.name.getD org.name }
        let org := { org with display_name := e.changes.display_name.getD org.display_name }
        let org := match e.changes.description with
          | some d => { org with description := some d }
          | none => org
        let org := { org with status := e.changes.status.getD org.status }
        let org := { org with updated_at := e.occurred_at }
        { self with organization := some org }
      | none => self
    | .DepartmentCreated e =>
      let dept : Department :=
        { id := e.department_id
          organization_id := e.organization_id
          parent_department_id := e.parent_department_id
          name := e.name
          code := e.code
          description := none
          head_role_id := none
          status := .Active
          created_at := e.occurred_at
          updated_at := e.occurred_at }
      { self with departments := AssocMap.insert self.departments e.department_id dept }
    | .TeamFormed e =>
      let team : Team :=
        { id := e.team_id
          organization_id := e.organization_id
          department_id := e.department_id
          name := e.name
          description := none
          team_type := e.team_type
          lead_role_id := none
          max_members := none
          status := .Forming
          created_at := e.occurred_at
          updated_at := e.occurred_at }
      { self with teams := AssocMap.insert self.teams e.team_id team }
    | .RoleCreated e =>
      let role : Role :=
        { id := e.role_id
          organization_id := e.organization_id
          department_id := e.department_id
          team_id := e.team_id
          title := e.title
          code := e.code
          description := none
          role_type := e.role_type
          level := none
          reports_to := none
          permissions := []
          responsibilities := []
          status := .Active
          created_at := e.occurred_at
          updated_at := e.occurred_at }
      { self with roles := AssocMap.insert self.roles e.role_id role }
    | .MemberAdded e =>
      let member : OrganizationMember :=
        { id := e.person_id
          person_id := e.person_id
          role := e.role
          department_id := e.department_id
          joined_at := e.occurred_at }
      { self with members := AssocMap.insert self.members e.person_id member }
    | .LocationAdded e =>
      let location : OrganizationLocation :=
        { id := e.location_id
          name := e.name
          address := e.address
          is_primary := e.is_primary }
      { self with locations := AssocMap.insert self.locations e.location_id location }
    | .OrganizationStatusChanged e =>
      { self with
        status := e.new_status
        organization := self.organization.map (fun org => { org with status := e.new_status }) }
    | .MemberRoleUpdated e =>
      { self with
        members := self.members.map (fun p =>
          if p.1 = e.person_id then (p.1, { p.2 with role := e.new_role }) else p) }
    | .MemberRemoved e =>
      { self with members := AssocMap.erase self.members e.person_id }
    | .ReportingRelationshipChanged e =>
      { self with
        members := self.members.map (fun p =>
          if p.1 = e.person_id then
            (p.1, { p.2 with role := { p.2.role with reports_to := e.new_manager_id } })
          else p) }
    | .PrimaryLocationChanged e =>
      { self with
        locations := self.locations.map (fun p =>
          (p.1, { p.2 with is_primary := p.1 = e.new_primary_location_id })) }
    | .LocationRemoved e =>
      { self with locations := AssocMap.erase self.locations e.location_id }
    | .OrganizationDissolved _ =>
      { self with
        status := .Dissolved
        organization := self.organization.map (fun org => { org with status := .Dissolved }) }
    | .OrganizationMerged _ =>
      { self with
        status := .Merged
        organization := self.organization.map (fun org => { org with status := .Merged }) }
    | .ChildOrganizationAdded e =>
      let child : ChildOrganization :=
        { id := e.child_organization_id
          name := e.child_name
          org_type := e.child_type
          added_at := e.occurred_at }
      { self with
        child_organizations :=
          AssocMap.insert self.child_organizations e.child_organization_id child }
    | .ChildOrganizationRemoved e =>
      { self with
        child_organizations := AssocMap.erase self.child_organizations e.child_organization_id }
    | _ => self
  { new_aggregate with version := new_aggregate.version + 1 }

/-- Mutable-style wrapper (OrganizationAggregate::apply_event): assigns the
result of apply_event_pure back to self; in the embedding this is the same
function. -/
def apply_event (self : OrganizationAggregate)
    (event : OrganizationEvent) : OrganizationAggregate :=
  self.apply_event_pure event

end OrganizationAggregate

/-- Command payload: create organization (src/commands.rs). -/
structure CreateOrganization where
  identity : MessageIdentity
  name : String
  display_name : String
  description : Option String
  organization_type : OrganizationType
  parent_id : Option OrgId
  founded_date : Option Timestamp
  metadata : JsonValue
deriving DecidableEq, Repr

/-- Command payload: update organization (src/commands.rs). -/
structure UpdateOrganization where
  identity : MessageIdentity
  organization_id : OrgId
  name : Option String
  display_name : Option String
  description : Option String
  status : Option OrganizationStatus
  metadata : Option JsonValue
deriving DecidableEq, Repr

/-- Command payload: dissolve organization (src/commands.rs). -/
structure DissolveOrganization where
  identity : MessageIdentity
  organization_id : OrgId
  reason : String
  effective_date : Timestamp
deriving DecidableEq, Repr

/-- Command payload: merge organizations (src/commands.rs). -/
structure MergeOrganizations where
  identity : MessageIdentity
  surviving_organization_id : OrgId
  merged_organization_id : OrgId
  merger_type : MergerType
  effective_date : Timestamp
deriving DecidableEq, Repr

/-- Command payload: create department (src/commands.rs). -/
structure CreateDepartment where
  identity : MessageIdentity
  organization_id : OrgId
  parent_department_id : Option DeptId
  name : String
  code : String
  description : Option String
deriving DecidableEq, Repr

/-- Command payload: update department (src/commands.rs). -/
structure UpdateDepartment where
  identity : MessageIdentity
  department_id : DeptId
  organization_id : OrgId
  name : Option String
  code : Option String
  description : Option String
  head_role_id : Option RoleId
  status : Option DepartmentStatus
deriving DecidableEq, Repr

/-- Command payload: restructure department (src/commands.rs). -/
structure RestructureDepartment where
  identity : MessageIdentity
  department_id : DeptId
  organization_id : OrgId
  new_parent_id : Option DeptId
  restructure_type : RestructureType
deriving DecidableEq, Repr

/-- Command payload: dissolve department (src/commands.rs). -/
structure DissolveDepartment where
  identity : MessageIdentity
  department_id : DeptId
  organization_id : OrgId
  reason : String
  transfer_to : Option DeptId
deriving DecidableEq, Repr

/-- Command payload: create team (src/commands.rs). -/
structure CreateTeam where
  identity : MessageIdentity
  organization_id : OrgId
  department_id : Option DeptId
  name : String
  description : Option String
  team_type : TeamType
  max_members : Option Nat
deriving DecidableEq, Repr

/-- Command payload: update team (src/commands.rs). -/
structure UpdateTeam where
  identity : MessageIdentity
  team_id : TeamId
  organization_id : OrgId
  name : Option String
  description : Option String
  lead_role_id : Option RoleId
  max_members : Option Nat
  status : Option TeamStatus
deriving DecidableEq, Repr

/-- Command payload: disband team (src/commands.rs). -/
structure DisbandTeam where
  identity : MessageIdentity
  team_id : TeamId
  organization_id : OrgId
  reason : String
  members_transfer_to : Option TeamId
deriving DecidableEq, Repr

/-- Command payload: create role (src/commands.rs). -/
structure CreateRole where
  identity : MessageIdentity
  organization_id : OrgId
  department_id : Option DeptId
  team_id : Option TeamId
  title : String
  code : String
  description : Option String
  role_type : RoleType
  level : Option Nat
  reports_to : Option RoleId
  permissions : List String
  responsibilities : List String
deriving DecidableEq, Repr

/-- Command payload: update role (src/commands.rs). -/
structure UpdateRole where
  identity : MessageIdentity
  role_id : RoleId
  organization_id : OrgId
  title : Option String
  description : Option String
  level : Option Nat
  reports_to : Option RoleId
  permissions : Option (List String)
  responsibilities : Option (List String)
  status : Option RoleStatus
deriving DecidableEq, Repr

/-- Command payload: assign role. Absent from src/commands.rs; field set
reconstructed from its only consumer, handle_assign_role in
src/aggregate.rs. -/
structure AssignRole where
  identity : MessageIdentity
  role_id : RoleId
  organization_id : OrgId
  person_id : Uuid
  effective_date : Timestamp
deriving DecidableEq, Repr

/-- Command payload: vacate role. Absent from src/commands.rs; field set
reconstructed from handle_vacate_role in src/aggregate.rs. -/
structure VacateRole where
  identity : MessageIdentity
  role_id : RoleId
  organization_id : OrgId
  person_id : Uuid
  reason : String
  effective_date : Timestamp
deriving DecidableEq, Repr

/-- Command payload: deprecate role (src/commands.rs). -/
structure DeprecateRole where
  identity : MessageIdentity
  role_id : RoleId
  organization_id : OrgId
  reason : String
  replacement_role_id : Option RoleId
  effective_date : Timestamp
deriving DecidableEq, Repr

/-- Command payload: add member. Absent from src/commands.rs; field set
reconstructed from handle_add_member in src/aggregate.rs. -/
structure AddMember where
  identity : MessageIdentity
  organization_id : Uuid
  person_id : Uuid
  role : OrganizationRole
  department_id : Option Uuid
deriving DecidableEq, Repr

/-- Command payload: update member role. Field set reconstructed from
handle_update_member_role in src/aggregate.rs. -/
structure UpdateMemberRole where
  identity : MessageIdentity
  organization_id : Uuid
  person_id : Uuid
  new_role : OrganizationRole
deriving DecidableEq, Repr

/-- Command payload: remove member. Field set reconstructed from
handle_remove_member in src/aggregate.rs. -/
structure RemoveMember where
  identity : MessageIdentity
  organization_id : Uuid
  person_id : Uuid
  reason : Option String
deriving DecidableEq, Repr

/-- Command payload: change reporting relationship. Field set reconstructed
from handle_change_reporting_relationship in src/aggregate.rs. -/
structure ChangeReportingRelationship where
  identity : MessageIdentity
  organization_id : Uuid
  subordinate_id : Uuid
  new_manager_id : Uuid
deriving DecidableEq, Repr

/-- Command payload: add location. Field set reconstructed from
handle_add_location in src/aggregate.rs. -/
structure AddLocation where
  identity : MessageIdentity
  organization_id : Uuid
  location_id : Uuid
  name : String
  address : String
deriving DecidableEq, Repr

/-- Command payload: change primary location. Field set reconstructed from
handle_change_primary_location in src/aggregate.rs. -/
structure ChangePrimaryLocation where
  identity : MessageIdentity
  organization_id : Uuid
  location_id : Uuid
deriving DecidableEq, Repr

/-- Command payload: remove location. Field set reconstructed from
handle_remove_location in src/aggregate.rs. -/
structure RemoveLocation where
  identity : MessageIdentity
  organization_id : Uuid
  location_id : Uuid
deriving DecidableEq, Repr

/-- Command payload: add child organization (src/commands.rs). -/
structure AddChildOrganization where
  identity : MessageIdentity
  parent_organization_id : Uuid
  child_organization_id : Uuid
  child_name : String
  child_type : OrganizationType
deriving DecidableEq, Repr

/-- Command payload: remove child organization (src/commands.rs). -/
structure RemoveChildOrganization where
  identity : MessageIdentity
  parent_organization_id : Uuid
  child_organization_id : Uuid
deriving DecidableEq, Repr

/-- Command payload: change organization status (src/commands.rs). -/
structure ChangeOrganizationStatus where
  identity : MessageIdentity
  organization_id : Uuid
  new_status : OrganizationStatus
  reason : Option String
deriving DecidableEq, Repr

/-- Organization command union, with the variants dispatched by
OrganizationAggregate::handle_command in src/aggregate.rs. -/
inductive OrganizationCommand
  | CreateOrganization (cmd : CreateOrganization)
  | UpdateOrganization (cmd : UpdateOrganization)
  | DissolveOrganization (cmd : DissolveOrganization)
  | MergeOrganizations (cmd : MergeOrganizations)
  | CreateDepartment (cmd : CreateDepartment)
  | UpdateDepartment (cmd : UpdateDepartment)
  | RestructureDepartment (cmd : RestructureDepartment)
  | DissolveDepartment (cmd : DissolveDepartment)
  | CreateTeam (cmd : CreateTeam)
  | UpdateTeam (cmd : UpdateTeam)
  | DisbandTeam (cmd : DisbandTeam)
  | CreateRole (cmd : CreateRole)
  | UpdateRole (cmd : UpdateRole)
  | AssignRole (cmd : AssignRole)
  | VacateRole (cmd : VacateRole)
  | DeprecateRole (cmd : DeprecateRole)
  | AddMember (cmd : AddMember)
  | UpdateMemberRole (cmd : UpdateMemberRole)
  | RemoveMember (cmd : RemoveMember)
  | ChangeReportingRelationship (cmd : ChangeReportingRelationship)
  | AddLocation (cmd : AddLocation)
  | ChangePrimaryLocation (cmd : ChangePrimaryLocation)
  | RemoveLocation (cmd : RemoveLocation)
  | AddChildOrganization (cmd : AddChildOrganization)
  | RemoveChildOrganization (cmd : RemoveChildOrganization)
  | ChangeOrganizationStatus (cmd : ChangeOrganizationStatus)
deriving DecidableEq, Repr

/-- Values of the effectful generators a handler may call:
Uuid::now_v7() for the event id, EntityId::new() for a freshly created
entity id, and Utc::now() for the event timestamp. -/
structure FreshCtx where
  fresh_event_id : Uuid
  fresh_entity_id : Uuid
  now : Timestamp
deriving DecidableEq, Repr

/-- Result of a command handler: the returned events or error, paired with
the aggregate the mutable receiver holds afterwards (the source handlers
take self by mutable reference but never assign to it). -/
abbrev HandlerResult :=
  Except OrganizationError (List OrganizationEvent) × OrganizationAggregate

namespace OrganizationAggregate

/-- Upward walk of the reporting chain used by
would_create_circular_reference: follow reports_to links from the current
member, keeping a visited set to stop on pre-existing cycles; report true
if the subordinate is reached. The fuel argument bounds the iteration
count of the Rust while-let loop; the loop visits each member key at most
once, so members.length + 1 fuel always reaches the natural exit. -/
def walk_up (members : AssocMap Uuid OrganizationMember)
    (subordinate_id : Uuid) :
    Nat → Uuid → List Uuid → Bool
  | 0, _, _ => false
  | fuel + 1, current_id, visited =>
    match AssocMap.find members current_id with
    | none => false
    | some member =>
      if current_id ∈ visited then false
      else if current_id = subordinate_id then true
      else
        match member.role.reports_to with
        | some r => walk_up members subordinate_id fuel r (current_id :: visited)
        | none => false

/-- Cycle check from src/aggregate.rs
(OrganizationAggregate::would_create_circular_reference): walk up from the
proposed new manager; a cycle would arise iff the walk meets the
subordinate. -/
def would_create_circular_reference (self : OrganizationAggregate)
    (subordinate_id new_manager_id : Uuid) : Bool :=
  walk_up self.members subordinate_id (self.members.length + 1) new_manager_id []

/-- Status transition check from src/aggregate.rs
(OrganizationAggregate::is_valid_status_transition). -/
def is_valid_status_transition (s t : OrganizationStatus) : Bool :=
  if s = t then false
  else
    match s, t with
    | .Pending, .Active => true
    | .Active, .Inactive | .Active, .Suspended
    | .Active, .Dissolved | .Active, .Merged => true
    | .Inactive, .Active => true
    | .Suspended, .Active | .Suspended, .Dissolved => true
    | .Dissolved, _ | .Merged, _ => false
    | _, _ => false

/-- Handler for CreateOrganization (src/aggregate.rs). -/
def handle_create_organization (ctx : FreshCtx) (self : OrganizationAggregate)
    (cmd : CreateOrganization) : HandlerResult :=
  if self.organization.isSome then
    (.error (.DuplicateEntity "Organization already exists"), self)
  else
    (.ok [.OrganizationCreated
      { event_id := ctx.fresh_event_id
        identity := cmd.identity
        organization_id := ctx.fresh_entity_id
        name := cmd.name
        display_name := cmd.display_name
        organization_type := cmd.organization_type
        parent_id := cmd.parent_id
        metadata := cmd.metadata
        occurred_at := ctx.now }], self)

/-- Handler for UpdateOrganization (src/aggregate.rs). -/
def handle_update_organization (ctx : FreshCtx) (self : OrganizationAggregate)
    (cmd : UpdateOrganization) : HandlerResult :=
  if self.organization.isNone then
    (.error (.OrganizationNotFound cmd.organization_id), self)
  else
    (.ok [.OrganizationUpdated
      { event_id := ctx.fresh_event_id
        identity := cmd.identity
        organization_id := cmd.organization_id
        changes :=
          { name := cmd.name
            display_name := cmd.display_name
            description := cmd.description
            status := cmd.status
            metadata := cmd.metadata }
        occurred_at := ctx.now }], self)

/-- Handler for DissolveOrganization (src/aggregate.rs). -/
def handle_dissolve_organization (ctx : FreshCtx) (self : OrganizationAggregate)
    (cmd : DissolveOrganization) : HandlerResult :=
  if self.organization.isNone then
    (.error (.OrganizationNotFound cmd.organization_id), self)
  else
    (.ok [.OrganizationDissolved
      { event_id := ctx.fresh_event_id
        identity := cmd.identity
        organization_id := cmd.organization_id
        reason := cmd.reason
        effective_date := cmd.effective_date
        occurred_at := ctx.now }], self)

/-- Handler for MergeOrganizations (src/aggregate.rs). -/
def handle_merge_organizations (ctx : FreshCtx) (self : OrganizationAggregate)
    (cmd : MergeOrganizations) : HandlerResult :=
  if self.organization.isNone then
    (.error (.OrganizationNotFound cmd.surviving_organization_id), self)
  else if cmd.surviving_organization_id = cmd.merged_organization_id then
    (.error (.CircularReference "Organization cannot merge with itself"), self)
  else
    (.ok [.OrganizationMerged
      { event_id := ctx.fresh_event_id
        identity := cmd.identity
        surviving_organization_id := cmd.surviving_organization_id
        merged_organization_id := cmd.merged_organization_id
        merger_type := cmd.merger_type
        effective_date := cmd.effective_date
        occurred_at := ctx.now }], self)

/-- Handler for CreateDepartment (src/aggregate.rs). -/
def handle_create_department (ctx : FreshCtx) (self : OrganizationAggregate)
    (cmd : CreateDepartment) : HandlerResult :=
  if self.organization.isNone then
    (.error (.OrganizationNotFound cmd.organization_id), self)
  else
    (.ok [.DepartmentCreated
      { event_id := ctx.fresh_event_id
        identity := cmd.identity
        department_id := ctx.fresh_entity_id
        organization_id := cmd.organization_id
        parent_department_id := cmd.parent_department_id
        name := cmd.name
        code := cmd.code
        occurred_at := ctx.now }], self)

/-- Handler for UpdateDepartment (src/aggregate.rs). -/
def handle_update_department (ctx : FreshCtx) (self : OrganizationAggregate)
    (cmd : UpdateDepartment) : HandlerResult :=
  if ¬ (AssocMap.hasKey self.departments cmd.department_id) then
    (.error (.DepartmentNotFound cmd.department_id), self)
  else
    (.ok [.DepartmentUpdated
      { event_id := ctx.fresh_event_id
        identity := cmd.identity
        department_id := cmd.department_id
        organization_id := cmd.organization_id
        changes :=
          { name := cmd.name
            code := cmd.code
            description := cmd.description
            head_role_id := cmd.head_role_id
            status := cmd.status }
        occurred_at := ctx.now }], self)

/-- Handler for RestructureDepartment (src/aggregate.rs). -/
def handle_restructure_department (ctx : FreshCtx) (self : OrganizationAggregate)
    (cmd : RestructureDepartment) : HandlerResult :=
  if ¬ (AssocMap.hasKey self.departments cmd.department_id) then
    (.error (.DepartmentNotFound cmd.department_id), self)
  else
    (.ok [.DepartmentRestructured
      { event_id := ctx.fresh_event_id
        identity := cmd.identity
        department_id := cmd.department_id
        organization_id := cmd.organization_id
        new_parent_id := cmd.new_parent_id
        restructure_type := cmd.restructure_type
        occurred_at := ctx.now }], self)

/-- Handler for DissolveDepartment (src/aggregate.rs). -/
def handle_dissolve_department (ctx : FreshCtx) (self : OrganizationAggregate)
    (cmd : DissolveDepartment) : HandlerResult :=
  if ¬ (AssocMap.hasKey self.departments cmd.department_id) then
    (.error (.DepartmentNotFound cmd.department_id), self)
  else
    (.ok [.DepartmentDissolved
      { event_id := ctx.fresh_event_id
        identity := cmd.identity
        department_id := cmd.department_id
        organization_id := cmd.organization_id
        reason := cmd.reason
        transfer_to := cmd.transfer_to
        occurred_at := ctx.now }], self)

/-- Handler for CreateTeam (src/aggregate.rs). -/
def handle_create_team (ctx : FreshCtx) (self : OrganizationAggregate)
    (cmd : CreateTeam) : HandlerResult :=
  if self.organization.isNone then
    (.error (.OrganizationNotFound cmd.organization_id), self)
  else
    (.ok [.TeamFormed
      { event_id := ctx.fresh_event_id
        identity := cmd.identity
        team_id := ctx.fresh_entity_id
        organization_id := cmd.organization_id
        department_id := cmd.department_id
        name := cmd.name
        team_type := cmd.team_type
        occurred_at := ctx.now }], self)

/-- Handler for UpdateTeam (src/aggregate.rs). -/
def handle_update_team (ctx : FreshCtx) (self : OrganizationAggregate)
    (cmd : UpdateTeam) : HandlerResult :=
  if ¬ (AssocMap.hasKey self.teams cmd.team_id) then
    (.error (.TeamNotFound cmd.team_id), self)
  else
    (.ok [.TeamUpdated
      { event_id := ctx.fresh_event_id
        identity := cmd.identity
        team_id := cmd.team_id
        organization_id := cmd.organization_id
        changes :=
          { name := cmd.name
            description := cmd.description
            lead_role_id := cmd.lead_role_id
            max_members := cmd.max_members
            status := cmd.status }
        occurred_at := ctx.now }], self)

/-- Handler for DisbandTeam (src/aggregate.rs). -/
def handle_disband_team (ctx : FreshCtx) (self : OrganizationAggregate)
    (cmd : DisbandTeam) : HandlerResult :=
  if ¬ (AssocMap.hasKey self.teams cmd.team_id) then
    (.error (.TeamNotFound cmd.team_id), self)
  else
    (.ok [.TeamDisbanded
      { event_id := ctx.fresh_event_id
        identity := cmd.identity
        team_id := cmd.team_id
        organization_id := cmd.organization_id
        reason := cmd.reason
        members_transferred_to := cmd.members_transfer_to
        occurred_at := ctx.now }], self)

/-- Handler for CreateRole (src/aggregate.rs). -/
def handle_create_role (ctx : FreshCtx) (self : OrganizationAggregate)
    (cmd : CreateRole) : HandlerResult :=
  if self.organization.isNone then
    (.error (.OrganizationNotFound cmd.organization_id), self)
  else
    (.ok [.RoleCreated
      { event_id := ctx.fresh_event_id
        identity := cmd.identity
        role_id := ctx.fresh_entity_id
        organization_id := cmd.organization_id
        department_id := cmd.department_id
        team_id := cmd.team_id
        title := cmd.title
        code := cmd.code
        role_type := cmd.role_type
        occurred_at := ctx.now }], self)

/-- Handler for UpdateRole (src/aggregate.rs); the source performs no
validation before emitting the event. -/
def handle_update_role (ctx : FreshCtx) (self : OrganizationAggregate)
    (cmd : UpdateRole) : HandlerResult :=
  (.ok [.RoleUpdated
    { event_id := ctx.fresh_event_id
      identity := cmd.identity
      role_id := cmd.role_id
      organization_id := cmd.organization_id
      changes :=
        { title := cmd.title
          description := cmd.description
          level := cmd.level
          reports_to := cmd.reports_to
          permissions := cmd.permissions
          responsibilities := cmd.responsibilities
          status := cmd.status }
      occurred_at := ctx.now }], self)

/-- Handler for AssignRole (src/aggregate.rs); no validation. -/
def handle_assign_role (ctx : FreshCtx) (self : OrganizationAggregate)
    (cmd : AssignRole) : HandlerResult :=
  (.ok [.RoleAssigned
    { event_id := ctx.fresh_event_id
      identity := cmd.identity
      role_id := cmd.role_id
      organization_id := cmd.organization_id
      person_id := cmd.person_id
      effective_date := cmd.effective_date
      occurred_at := ctx.now }], self)

/-- Handler for VacateRole (src/aggregate.rs); no validation. -/
def handle_vacate_role (ctx : FreshCtx) (self : OrganizationAggregate)
    (cmd : VacateRole) : HandlerResult :=
  (.ok [.RoleVacated
    { event_id := ctx.fresh_event_id
      identity := cmd.identity
      role_id := cmd.role_id
      organization_id := cmd.organization_id
      vacated_by := cmd.person_id
      reason := cmd.reason
      effective_date := cmd.effective_date
      occurred_at := ctx.now }], self)

/-- Handler for DeprecateRole (src/aggregate.rs); no validation. -/
def handle_deprecate_role (ctx : FreshCtx) (self : OrganizationAggregate)
    (cmd : DeprecateRole) : HandlerResult :=
  (.ok [.RoleDeprecated
    { event_id := ctx.fresh_event_id
      identity := cmd.identity
      role_id := cmd.role_id
      organization_id := cmd.organization_id
      reason := cmd.reason
      replacement_role_id := cmd.replacement_role_id
      effective_date := cmd.effective_date
      occurred_at := ctx.now }], self)

/-- Handler for AddMember (src/aggregate.rs). -/
def handle_add_member (ctx : FreshCtx) (self : OrganizationAggregate)
    (cmd : AddMember) : HandlerResult :=
  if AssocMap.hasKey self.members cmd.person_id then
    (.error (.DuplicateEntity
      ("Member " ++ toString cmd.person_id ++ " already exists")), self)
  else
    (.ok [.MemberAdded
      { event_id := ctx.fresh_event_id
        identity := cmd.identity
        organization_id := cmd.organization_id
        person_id := cmd.person_id
        role := cmd.role
        department_id := cmd.department_id
        occurred_at := ctx.now }], self)

/-- Handler for UpdateMemberRole (src/aggregate.rs). -/
def handle_update_member_role (ctx : FreshCtx) (self : OrganizationAggregate)
    (cmd : UpdateMemberRole) : HandlerResult :=
  match AssocMap.find self.members cmd.person_id with
  | none => (.error (.OrganizationNotFound cmd.person_id), self)
  | some member =>
    (.ok [.MemberRoleUpdated
      { event_id := ctx.fresh_event_id
        identity := cmd.identity
        organization_id := cmd.organization_id
        person_id := cmd.person_id
        new_role := cmd.new_role
        previous_role := member.role
        occurred_at := ctx.now }], self)

/-- Handler for RemoveMember (src/aggregate.rs): only checks that the
member exists; dependents reporting to the member are not examined. -/
def handle_remove_member (ctx : FreshCtx) (self : OrganizationAggregate)
    (cmd : RemoveMember) : HandlerResult :=
  if ¬ (AssocMap.hasKey self.members cmd.person_id) then
    (.error (.OrganizationNotFound cmd.person_id), self)
  else
    (.ok [.MemberRemoved
      { event_id := ctx.fresh_event_id
        identity := cmd.identity
        organization_id := cmd.organization_id
        person_id := cmd.person_id
        reason := cmd.reason
        occurred_at := ctx.now }], self)

/-- Handler for ChangeReportingRelationship (src/aggregate.rs). -/
def handle_change_reporting_relationship (ctx : FreshCtx)
    (self : OrganizationAggregate)
    (cmd : ChangeReportingRelationship) : HandlerResult :=
  if ¬ (AssocMap.hasKey self.members cmd.subordinate_id) then
    (.error (.OrganizationNotFound cmd.subordinate_id), self)
  else if ¬ (AssocMap.hasKey self.members cmd.new_manager_id) then
    (.error (.OrganizationNotFound cmd.new_manager_id), self)
  else if self.would_create_circular_reference cmd.subordinate_id cmd.new_manager_id then
    (.error (.CircularReference "Cannot create circular reporting relationship"), self)
  else
    let previous_manager :=
      (AssocMap.find self.members cmd.subordinate_id).bind (·.role.reports_to)
    (.ok [.ReportingRelationshipChanged
      { event_id := ctx.fresh_event_id
        identity := cmd.identity
        organization_id := cmd.organization_id
        person_id := cmd.subordinate_id
        new_manager_id := some cmd.new_manager_id
        previous_manager_id := previous_manager
        occurred_at := ctx.now }], self)

/-- Handler for AddLocation (src/aggregate.rs): the first location added
becomes primary automatically. -/
def handle_add_location (ctx : FreshCtx) (self : OrganizationAggregate)
    (cmd : AddLocation) : HandlerResult :=
  if AssocMap.hasKey self.locations cmd.location_id then
    (.error (.DuplicateEntity
      ("Location " ++ toString cmd.location_id ++ " already exists")), self)
  else
    (.ok [.LocationAdded
      { event_id := ctx.fresh_event_id
        identity := cmd.identity
        organization_id := cmd.organization_id
        location_id := cmd.location_id
        name := cmd.name
        address := cmd.address
        is_primary := self.locations.isEmpty
        occurred_at := ctx.now }], self)

/-- Handler for ChangePrimaryLocation (src/aggregate.rs). -/
def handle_change_primary_location (ctx : FreshCtx)
    (self : OrganizationAggregate)
    (cmd : ChangePrimaryLocation) : HandlerResult :=
  if ¬ (AssocMap.hasKey self.locations cmd.location_id) then
    (.error (.OrganizationNotFound cmd.location_id), self)
  else
    let previous_primary := (self.locations.find? (·.2.is_primary)).map (·.1)
    (.ok [.PrimaryLocationChanged
      { event_id := ctx.fresh_event_id
        identity := cmd.identity
        organization_id := cmd.organization_id
        new_primary_location_id := cmd.location_id
        previous_primary_location_id := previous_primary
        occurred_at := ctx.now }], self)

/-- Handler for RemoveLocation (src/aggregate.rs). -/
def handle_remove_location (ctx : FreshCtx) (self : OrganizationAggregate)
    (cmd : RemoveLocation) : HandlerResult :=
  if ¬ (AssocMap.hasKey self.locations cmd.location_id) then
    (.error (.OrganizationNotFound cmd.location_id), self)
  else
    (.ok [.LocationRemoved
      { event_id := ctx.fresh_event_id
        identity := cmd.identity
        organization_id := cmd.organization_id
        location_id := cmd.location_id
        occurred_at := ctx.now }], self)

/-- Handler for AddChildOrganization (src/aggregate.rs). -/
def handle_add_child_organization (ctx : FreshCtx)
    (self : OrganizationAggregate)
    (cmd : AddChildOrganization) : HandlerResult :=
  if cmd.child_organization_id = self.id then
    (.error (.CircularReference "Organization cannot be its own child"), self)
  else if AssocMap.hasKey self.child_organizations cmd.child_organization_id then
    (.error (.DuplicateEntity (toString cmd.child_organization_id)), self)
  else
    (.ok [.ChildOrganizationAdded
      { event_id := ctx.fresh_event_id
        identity := cmd.identity
        parent_organization_id := self.id
        child_organization_id := cmd.child_organization_id
        child_name := cmd.child_name
        child_type := cmd.child_type
        occurred_at := ctx.now }], self)

/-- Handler for RemoveChildOrganization (src/aggregate.rs). -/
def handle_remove_child_organization (ctx : FreshCtx)
    (self : OrganizationAggregate)
    (cmd : RemoveChildOrganization) : HandlerResult :=
  if ¬ (AssocMap.hasKey self.child_organizations cmd.child_organization_id) then
    (.error (.OrganizationNotFound cmd.child_organization_id), self)
  else
    (.ok [.ChildOrganizationRemoved
      { event_id := ctx.fresh_event_id
        identity := cmd.identity
        parent_organization_id := self.id
        child_organization_id := cmd.child_organization_id
        occurred_at := ctx.now }], self)

/-- Handler for ChangeOrganizationStatus (src/aggregate.rs): the transition
is validated with is_valid_status_transition; an invalid transition is
rejected with OrganizationError::InvalidStructure (the code's variant for
the invalid-transition category). -/
def handle_change_organization_status (ctx : FreshCtx)
    (self : OrganizationAggregate)
    (cmd : ChangeOrganizationStatus) : HandlerResult :=
  if ¬ (is_valid_status_transition self.status cmd.new_status) then
    (.error (.InvalidStructure
      ("Invalid status transition from " ++ self.status.debugName
        ++ " to " ++ cmd.new_status.debugName)), self)
  else
    (.ok [.OrganizationStatusChanged
      { event_id := ctx.fresh_event_id
        identity := cmd.identity
        organization_id := cmd.organization_id
        new_status := cmd.new_status
        previous_status := self.status
        reason := cmd.reason
        occurred_at := ctx.now }], self)

/-- Command dispatch (OrganizationAggregate::handle_command in
src/aggregate.rs). -/
def handle_command (ctx : FreshCtx) (self : OrganizationAggregate)
    (command : OrganizationCommand) : HandlerResult :=
  match command with
  | .CreateOrganization cmd => self.handle_create_organization ctx cmd
  | .UpdateOrganization cmd => self.handle_update_organization ctx cmd
  | .DissolveOrganization cmd => self.handle_dissolve_organization ctx cmd
  | .MergeOrganizations cmd => self.handle_merge_organizations ctx cmd
  | .CreateDepartment cmd => self.handle_create_department ctx cmd
  | .UpdateDepartment cmd => self.handle_update_department ctx cmd
  | .RestructureDepartment cmd => self.handle_restructure_department ctx cmd
  | .DissolveDepartment cmd => self.handle_dissolve_department ctx cmd
  | .CreateTeam cmd => self.handle_create_team ctx cmd
  | .UpdateTeam cmd => self.handle_update_team ctx cmd
  | .DisbandTeam cmd => self.handle_disband_team ctx cmd
  | .CreateRole cmd => self.handle_create_role ctx cmd
  | .UpdateRole cmd => self.handle_update_role ctx cmd
  | .AssignRole cmd => self.handle_assign_role ctx cmd
  | .VacateRole cmd => self.handle_vacate_role ctx cmd
  | .DeprecateRole cmd => self.handle_deprecate_role ctx cmd
  | .AddMember cmd => self.handle_add_member ctx cmd
  | .UpdateMemberRole cmd => self.handle_update_member_role ctx cmd
  | .RemoveMember cmd => self.handle_remove_member ctx cmd
  | .ChangeReportingRelationship cmd => self.handle_change_reporting_relationship ctx cmd
  | .AddLocation cmd => self.handle_add_location ctx cmd
  | .ChangePrimaryLocation cmd => self.handle_change_primary_location ctx cmd
  | .RemoveLocation cmd => self.handle_remove_location ctx cmd
  | .AddChildOrganization cmd => self.handle_add_child_organization ctx cmd
  | .RemoveChildOrganization cmd => self.handle_remove_child_organization ctx cmd
  | .ChangeOrganizationStatus cmd => self.handle_change_organization_status ctx cmd

end OrganizationAggregate

/-- Aggregate snapshot, from src/infrastructure/persistence.rs. -/
structure OrganizationSnapshot where
  aggregate : OrganizationAggregate
  version : Nat
deriving DecidableEq, Repr

/-- In-memory snapshot store, from src/infrastructure/persistence.rs. -/
structure InMemorySnapshotStore where
  snapshots : AssocMap Uuid OrganizationSnapshot
deriving DecidableEq, Repr

/-- Store (InMemorySnapshotStore::save); always returns Ok in the source. -/
def InMemorySnapshotStore.save (store : InMemorySnapshotStore)
    (aggregate_id : Uuid) (snapshot : OrganizationSnapshot) : InMemorySnapshotStore :=
  { snapshots := AssocMap.insert store.snapshots aggregate_id snapshot }

/-- Lookup (InMemorySnapshotStore::get). -/
def InMemorySnapshotStore.get (store : InMemorySnapshotStore)
    (aggregate_id : Uuid) : Option OrganizationSnapshot :=
  AssocMap.find store.snapshots aggregate_id

/-- Event store backed by NATS JetStream
(src/infrastructure/nats_integration.rs). The durable stream is modelled
by its contract: a per-aggregate ordered append-only log. -/
structure NatsEventStore where
  log : AssocMap Uuid (List OrganizationEvent)
deriving DecidableEq, Repr

/-- Events stored for one aggregate, in append order. -/
def NatsEventStore.events_for (store : NatsEventStore) (aggregate_id : Uuid) :
    List OrganizationEvent :=
  (AssocMap.find store.log aggregate_id).getD []

/-- Append (NatsEventStore::append_events): publishes each event in order
to the aggregate's stream; no expected-sequence or version condition is
attached to the publish calls. -/
def NatsEventStore.append_events (store : NatsEventStore) (aggregate_id : Uuid)
    (events : List OrganizationEvent) : NatsEventStore :=
  { log := AssocMap.insert store.log aggregate_id
      (store.events_for aggregate_id ++ events) }

/-- Repository over the event store and snapshot store, from
src/infrastructure/persistence.rs (struct OrganizationRepository). -/
structure OrganizationRepository where
  event_store : NatsEventStore
  snapshot_store : InMemorySnapshotStore
  snapshot_frequency : Nat
deriving DecidableEq, Repr

/-- Load (OrganizationRepository::get in src/infrastructure/persistence.rs):
tries the snapshot store first and returns the snapshot aggregate as-is
(the event tail after the snapshot is not replayed; the source marks this
with a TODO); with no snapshot it returns an EntityNotFound error without
consulting the event log. -/
def OrganizationRepository.get (repo : OrganizationRepository)
    (aggregate_id : Uuid) : Except OrganizationError OrganizationAggregate :=
  match repo.snapshot_store.get aggregate_id with
  | some snapshot => .ok snapshot.aggregate
  | none => .error (.EntityNotFound
      ("Organization " ++ toString aggregate_id ++ " not found"))

/-- Save (OrganizationRepository::save in
src/infrastructure/persistence.rs): appends the events unconditionally
(no expected-version parameter or check), then folds them onto the
snapshot aggregate (or a fresh one built with Utc::now, passed here as
now) and snapshots when the resulting version is a multiple of
snapshot_frequency. Always returns Ok. -/
def OrganizationRepository.save (now : Timestamp) (repo : OrganizationRepository)
    (aggregate_id : Uuid) (events : List OrganizationEvent) :
    Except OrganizationError OrganizationRepository :=
  if events.isEmpty then .ok repo
  else
    let repo1 : OrganizationRepository :=
      { repo with event_store := repo.event_store.append_events aggregate_id events }
    let aggregate :=
      match repo1.get aggregate_id with
      | .ok a => a
      | .error _ => OrganizationAggregate.new now aggregate_id "Organization" .Corporation
    let aggregate := events.foldl OrganizationAggregate.apply_event aggregate
    if aggregate.version % repo1.snapshot_frequency = 0 then
      .ok { repo1 with
        snapshot_store := repo1.snapshot_store.save aggregate_id
          { aggregate := aggregate, version := aggregate.version } }
    else
      .ok repo1

/-- In-memory event store from src/handlers/command_handler.rs
(struct InMemoryEventStore). -/
structure InMemoryEventStore where
  events : AssocMap Uuid (List OrganizationEvent)
deriving DecidableEq, Repr

/-- Append (InMemoryEventStore::save_events): extends the aggregate's
event vector and returns Ok unconditionally; the repository save in
src/handlers/command_handler.rs forwards to this with no version check. -/
def InMemoryEventStore.save_events (store : InMemoryEventStore)
    (aggregate_id : Uuid) (new_events : List OrganizationEvent) :
    Except OrganizationError InMemoryEventStore :=
  let stored := (AssocMap.find store.events aggregate_id).getD []
  .ok { events := AssocMap.insert store.events aggregate_id (stored ++ new_events) }

/-- Load (InMemoryEventStore::load_events). -/
def InMemoryEventStore.load_events (store : InMemoryEventStore)
    (aggregate_id : Uuid) : Except OrganizationError (List OrganizationEvent) :=
  .ok ((AssocMap.find store.events aggregate_id).getD [])

/-- Replay: fold a list of events over a starting aggregate with the pure
application function (the batched form of event application). -/
def replay (init : OrganizationAggregate)
    (events : List OrganizationEvent) : OrganizationAggregate :=
  events.foldl OrganizationAggregate.apply_event_pure init

/-- One-at-a-time application: each event applied through a separate
apply_event call, as the incremental handle+apply cycle does. -/
def apply_each (init : OrganizationAggregate) :
    List OrganizationEvent → OrganizationAggregate
  | [] => init
  | e :: rest => apply_each (init.apply_event e) rest

/-- Execute one command against the aggregate: on success apply the
produced events; on a validation error the state is left unchanged. -/
def run_command (ctx : FreshCtx) (agg : OrganizationAggregate)
    (cmd : OrganizationCommand) : OrganizationAggregate :=
  match (agg.handle_command ctx cmd).1 with
  | .ok events => events.foldl OrganizationAggregate.apply_event agg
  | .error _ => agg

/-- The location-management subset of the command union
(AddLocation, ChangePrimaryLocation, RemoveLocation). -/
inductive LocationCommand
  | add (cmd : AddLocation)
  | changePrimary (cmd : ChangePrimaryLocation)
  | remove (cmd : RemoveLocation)
deriving DecidableEq, Repr

/-- Injection of a location command into the command union. -/
def LocationCommand.toCommand : LocationCommand → OrganizationCommand
  | .add c => .AddLocation c
  | .changePrimary c => .ChangePrimaryLocation c
  | .remove c => .RemoveLocation c

/-- Run a sequence of location commands, each with its own generated
ids/timestamp. -/
def run_location_commands (agg : OrganizationAggregate) :
    List (FreshCtx × LocationCommand) → OrganizationAggregate
  | [] => agg
  | p :: rest => run_location_commands (run_command p.1 agg p.2.toCommand) rest

/-- Number of locations flagged primary. -/
def primary_count (agg : OrganizationAggregate) : Nat :=
  (agg.locations.filter (·.2.is_primary)).length

/-- The allowed-edge set of the status state machine as the specification
words it (spec section 4.3), for comparison against
is_valid_status_transition. -/
def allowedStatusEdges : List (OrganizationStatus × OrganizationStatus) :=
  [(.Pending, .Active),
   (.Active, .Inactive), (.Active, .Suspended),
   (.Active, .Dissolved), (.Active, .Merged),
   (.Inactive, .Active),
   (.Suspended, .Active), (.Suspended, .Dissolved)]

/-! Shared lemmas about the association-map model. -/

theorem AssocMap.find_insert_self [DecidableEq κ] (m : AssocMap κ α) (k : κ) (v : α) :
    AssocMap.find (AssocMap.insert m k v) k = some v := by
  induction m with
  | nil => simp [AssocMap.insert, AssocMap.find]
  | cons p rest ih =>
    obtain ⟨k', v'⟩ := p
    by_cases h : k' = k <;> simp [AssocMap.insert, AssocMap.find, h, ih]

theorem AssocMap.hasKey_cons [DecidableEq κ] (k' : κ) (v' : α)
    (rest : AssocMap κ α) (k : κ) :
    AssocMap.hasKey ((k', v') :: rest) k
      = if k' = k then true else AssocMap.hasKey rest k := by
  by_cases h : k' = k <;> simp [AssocMap.hasKey, AssocMap.find, h]

theorem AssocMap.find_insert_ne [DecidableEq κ] (m : AssocMap κ α) (k k' : κ) (v : α)
    (h : k' ≠ k) :
    AssocMap.find (AssocMap.insert m k v) k' = AssocMap.find m k' := by
  induction m with
  | nil =>
    simp only [AssocMap.insert, AssocMap.find]
    rw [if_neg (fun h' => h h'.symm)]
  | cons p rest ih =>
    obtain ⟨k₀, v₀⟩ := p
    by_cases h0 : k₀ = k
    · subst h0
      simp only [AssocMap.insert, if_pos rfl, AssocMap.find]
      rw [if_neg (fun h' => h h'.symm), if_neg (fun h' => h h'.symm)]
    · simp only [AssocMap.insert, if_neg h0, AssocMap.find, ih]

theorem AssocMap.find_erase_self [DecidableEq κ] (m : AssocMap κ α) (k : κ) :
    AssocMap.find (AssocMap.erase m k) k = none := by
  induction m with
  | nil => rfl
  | cons p rest ih =>
    obtain ⟨k', v'⟩ := p
    by_cases h : k' = k
    · simpa [AssocMap.erase, h] using ih
    · simp [AssocMap.erase, AssocMap.find, h, ih]

theorem AssocMap.find_erase_ne [DecidableEq κ] (m : AssocMap κ α) (k k' : κ)
    (h : k' ≠ k) :
    AssocMap.find (AssocMap.erase m k) k' = AssocMap.find m k' := by
  induction m with
  | nil => rfl
  | cons p rest ih =>
    obtain ⟨k₀, v₀⟩ := p
    by_cases h0 : k₀ = k
    · subst h0
      have e1 : AssocMap.erase ((k₀, v₀) :: rest) k₀ = AssocMap.erase rest k₀ := by
        simp [AssocMap.erase]
      have e2 : AssocMap.find ((k₀, v₀) :: rest) k' = AssocMap.find rest k' := by
        simp only [AssocMap.find]
        rw [if_neg (fun h' => h h'.symm)]
      rw [e1, e2, ih]
    · simp only [AssocMap.erase, if_neg h0, AssocMap.find, ih]

theorem AssocMap.find_mapval [DecidableEq κ] (m : AssocMap κ α) (f : κ × α → α) (k : κ) :
    AssocMap.find (m.map (fun p => (p.1, f p))) k
      = (AssocMap.find m k).map (fun v => f (k, v)) := by
  induction m with
  | nil => simp [AssocMap.find]
  | cons p rest ih =>
    obtain ⟨k', v'⟩ := p
    by_cases h : k' = k
    · subst h
      simp [AssocMap.find]
    · simp [AssocMap.find, h, ih]

theorem AssocMap.insert_of_not_hasKey [DecidableEq κ] (m : AssocMap κ α) (k : κ) (v : α)
    (h : AssocMap.hasKey m k = false) :
    AssocMap.insert m k v = m ++ [(k, v)] := by
  induction m with
  | nil => rfl
  | cons p rest ih =>
    obtain ⟨k', v'⟩ := p
    rw [AssocMap.hasKey_cons] at h
    by_cases h0 : k' = k
    · rw [if_pos h0] at h
      exact absurd h (by simp)
    · rw [if_neg h0] at h
      simp only [AssocMap.insert, if_neg h0, List.cons_append, List.cons.injEq, true_and]
      exact ih h

theorem AssocMap.erase_sublist [DecidableEq κ] (m : AssocMap κ α) (k : κ) :
    (AssocMap.erase m k).Sublist m := by
  induction m with
  | nil => simp [AssocMap.erase]
  | cons p rest ih =>
    obtain ⟨k', v'⟩ := p
    by_cases h : k' = k
    · simpa [AssocMap.erase, h] using ih.cons (k', v')
    · simpa [AssocMap.erase, h] using ih.cons₂ (k', v')

theorem AssocMap.hasKey_iff_mem [DecidableEq κ] (m : AssocMap κ α) (k : κ) :
    AssocMap.hasKey m k = true ↔ k ∈ AssocMap.keyList m := by
  induction m with
  | nil => simp [AssocMap.hasKey, AssocMap.find, AssocMap.keyList]
  | cons p rest ih =>
    obtain ⟨k', v'⟩ := p
    rw [AssocMap.hasKey_cons]
    by_cases h : k' = k
    · simp [AssocMap.keyList, h]
    · simp [AssocMap.keyList, h, ih, show ¬ (k = k') from fun hh => h hh.symm]

/-! Claim C2: replay determinism and fold associativity. -/

/-- Batched replay agrees with one-at-a-time apply_event calls. -/
theorem replay_eq_apply_each (init : OrganizationAggregate)
    (events : List OrganizationEvent) :
    replay init events = apply_each init events := by
  induction events generalizing init with
  | nil => rfl
  | cons e rest ih =>
    simp only [replay, List.foldl_cons, apply_each] at *
    exact ih _

/-- C2: for every event sequence E, folding E with apply_event_pure from
the empty aggregate equals applying the events one at a time via separate
apply_event calls, and the fold over a concatenation E1 ++ E2 from any
starting aggregate equals folding E2 from the result of folding E1. -/
theorem claim_C2_replay_determinism :
    (∀ (fresh_id : Uuid) (events : List OrganizationEvent),
      replay (OrganizationAggregate.empty fresh_id) events
        = apply_each (OrganizationAggregate.empty fresh_id) events)
    ∧ (∀ (init : OrganizationAggregate) (e1 e2 : List OrganizationEvent),
      replay init (e1 ++ e2) = replay (replay init e1) e2) := by
  refine ⟨fun fresh_id events => replay_eq_apply_each _ _, fun init e1 e2 => ?_⟩
  simp [replay, List.foldl_append]

/-! Claim C3: version monotonicity. -/

/-- Applying a single event increments the version by exactly one,
for every event variant. -/
theorem apply_event_pure_version (a : OrganizationAggregate)
    (e : OrganizationEvent) :
    (a.apply_event_pure e).version = a.version + 1 := by
  cases e <;>
    first
    | rfl
    | (simp only [OrganizationAggregate.apply_event_pure]
       split <;> rfl)

/-- C3: after applying n events from the empty aggregate the version is n,
and each single application — including unhandled event variants —
increments the version by exactly 1. -/
theorem claim_C3_version_monotonicity :
    (∀ (fresh_id : Uuid) (events : List OrganizationEvent),
      (replay (OrganizationAggregate.empty fresh_id) events).version = events.length)
    ∧ (∀ (a : OrganizationAggregate) (e : OrganizationEvent),
      (a.apply_event_pure e).version = a.version + 1) := by
  constructor
  · intro fresh_id events
    have key : ∀ (a : OrganizationAggregate) (es : List OrganizationEvent),
        (replay a es).version = a.version + es.length := by
      intro a es
      induction es generalizing a with
      | nil => simp [replay]
      | cons e rest ih =>
        simp only [replay, List.foldl_cons] at *
        rw [ih, apply_event_pure_version, List.length_cons]
        omega
    simpa [OrganizationAggregate.empty] using key (OrganizationAggregate.empty fresh_id) events
  · exact apply_event_pure_version

/-! Claim C4: the status transition matrix. -/

/-- The coded transition predicate agrees exactly with the allowed-edge
set worded by the specification. -/
theorem transition_iff_edge (s t : OrganizationStatus) :
    OrganizationAggregate.is_valid_status_transition s t = true
      ↔ (s, t) ∈ allowedStatusEdges := by
  cases s <;> cases t <;> decide

/-- C4: ChangeOrganizationStatus succeeds exactly on the allowed edges
(Pending to Active; Active to Inactive, Suspended, Dissolved or Merged;
Inactive to Active; Suspended to Active or Dissolved); every other pair,
including every identity pair, is rejected with the invalid-transition
error (OrganizationError::InvalidStructure) and produces no event, and
the aggregate is left untouched either way. -/
theorem claim_C4_status_transition_matrix (ctx : FreshCtx)
    (agg : OrganizationAggregate) (cmd : ChangeOrganizationStatus) :
    ((agg.handle_change_organization_status ctx cmd).2 = agg)
    ∧ ((∃ evs, (agg.handle_change_organization_status ctx cmd).1 = .ok evs)
        ↔ (agg.status, cmd.new_status) ∈ allowedStatusEdges)
    ∧ ((agg.status, cmd.new_status) ∉ allowedStatusEdges →
        (agg.handle_change_organization_status ctx cmd).1
          = .error (.InvalidStructure
              ("Invalid status transition from " ++ agg.status.debugName
                ++ " to " ++ cmd.new_status.debugName)))
    ∧ ((agg.status, cmd.new_status) ∈ allowedStatusEdges →
        (agg.handle_change_organization_status ctx cmd).1
          = .ok [.OrganizationStatusChanged
              { event_id := ctx.fresh_event_id
                identity := cmd.identity
                organization_id := cmd.organization_id
                new_status := cmd.new_status
                previous_status := agg.status
                reason := cmd.reason
                occurred_at := ctx.now }]) := by
  have hiff := transition_iff_edge agg.status cmd.new_status
  cases hb : OrganizationAggregate.is_valid_status_transition agg.status cmd.new_status with
  | false =>
    have hmem : (agg.status, cmd.new_status) ∉ allowedStatusEdges := by
      rw [← hiff, hb]; simp
    refine ⟨?_, ?_, ?_, ?_⟩
    · simp [OrganizationAggregate.handle_change_organization_status, hb]
    · simp [OrganizationAggregate.handle_change_organization_status, hb, hmem]
    · intro _
      simp [OrganizationAggregate.handle_change_organization_status, hb]
    · intro hc
      exact absurd hc hmem
  | true =>
    have hmem : (agg.status, cmd.new_status) ∈ allowedStatusEdges := hiff.mp hb
    refine ⟨?_, ?_, ?_, ?_⟩
    · simp [OrganizationAggregate.handle_change_organization_status, hb]
    · simp [OrganizationAggregate.handle_change_organization_status, hb, hmem]
    · intro hc
      exact absurd hmem hc
    · intro _
      simp [OrganizationAggregate.handle_change_organization_status, hb]

/-- Closed witness for C4: from Pending, the transition to Active is
accepted with the status-changed event, and the transition to Dissolved
is rejected with the invalid-transition error. -/
theorem claim_C4_status_transition_matrix_witness :
    ((OrganizationAggregate.empty 0).handle_change_organization_status
        ⟨10, 11, 12⟩ ⟨7, 5, .Active, none⟩).1
      = .ok [.OrganizationStatusChanged
          { event_id := 10
            identity := 7
            organization_id := 5
            new_status := .Active
            previous_status := .Pending
            reason := none
            occurred_at := 12 }]
    ∧ ((OrganizationAggregate.empty 0).handle_change_organization_status
        ⟨10, 11, 12⟩ ⟨7, 5, .Dissolved, none⟩).1
      = .error (.InvalidStructure
          "Invalid status transition from Pending to Dissolved") := by
  constructor
  · exact (claim_C4_status_transition_matrix ⟨10, 11, 12⟩
      (OrganizationAggregate.empty 0) ⟨7, 5, .Active, none⟩).2.2.2 (by decide)
  · exact (claim_C4_status_transition_matrix ⟨10, 11, 12⟩
      (OrganizationAggregate.empty 0) ⟨7, 5, .Dissolved, none⟩).2.2.1 (by decide)

/-! Claim C9: command handling is pure and all-or-nothing. -/

/-- C9: for every aggregate state and every command, handle_command leaves
the aggregate (every field) unchanged, and on success returns a non-empty
event list — validation errors are returned instead of events, never
alongside partial effects. -/
theorem claim_C9_handle_command_frame (ctx : FreshCtx)
    (agg : OrganizationAggregate) (cmd : OrganizationCommand) :
    ((agg.handle_command ctx cmd).2 = agg)
    ∧ (∀ evs, (agg.handle_command ctx cmd).1 = .ok evs → evs ≠ []) := by
  cases cmd <;>
    · refine ⟨?_, ?_⟩ <;>
        simp only [OrganizationAggregate.handle_command,
          OrganizationAggregate.handle_create_organization,
          OrganizationAggregate.handle_update_organization,
          OrganizationAggregate.handle_dissolve_organization,
          OrganizationAggregate.handle_merge_organizations,
          OrganizationAggregate.handle_create_department,
          OrganizationAggregate.handle_update_department,
          OrganizationAggregate.handle_restructure_department,
          OrganizationAggregate.handle_dissolve_department,
          OrganizationAggregate.handle_create_team,
          OrganizationAggregate.handle_update_team,
          OrganizationAggregate.handle_disband_team,
          OrganizationAggregate.handle_create_role,
          OrganizationAggregate.handle_update_role,
          OrganizationAggregate.handle_assign_role,
          OrganizationAggregate.handle_vacate_role,
          OrganizationAggregate.handle_deprecate_role,
          OrganizationAggregate.handle_add_member,
          OrganizationAggregate.handle_update_member_role,
          OrganizationAggregate.handle_remove_member,
          OrganizationAggregate.handle_change_reporting_relationship,
          OrganizationAggregate.handle_add_location,
          OrganizationAggregate.handle_change_primary_location,
          OrganizationAggregate.handle_remove_location,
          OrganizationAggregate.handle_add_child_organization,
          OrganizationAggregate.handle_remove_child_organization,
          OrganizationAggregate.handle_change_organization_status] <;>
        (repeat' split) <;>
        (try intro evs h) <;>
        first
        | rfl
        | (intro hnil
           simp [hnil] at h)

/-- Closed witness for C9: a concrete AddMember command leaves the
aggregate unchanged and its successful event list is non-empty. -/
theorem claim_C9_handle_command_frame_witness :
    ((OrganizationAggregate.empty 3).handle_command ⟨20, 21, 22⟩
        (.AddMember ⟨9, 3, 4, ⟨"CEO", .Executive, none⟩, none⟩)).2
      = OrganizationAggregate.empty 3
    ∧ ([.MemberAdded ⟨20, 9, 3, 4, ⟨"CEO", .Executive, none⟩, none, 22⟩]
        : List OrganizationEvent) ≠ [] := by
  refine ⟨(claim_C9_handle_command_frame ⟨20, 21, 22⟩ _ _).1, ?_⟩
  exact (claim_C9_handle_command_frame ⟨20, 21, 22⟩ (OrganizationAggregate.empty 3)
      (.AddMember ⟨9, 3, 4, ⟨"CEO", .Executive, none⟩, none⟩)).2
    _ (by rfl)

/-! Claim C10: removing a member leaves other members' manager
references untouched, even when they point at the removed member. -/

/-- C10: RemoveMember succeeds for every existing member regardless of who
reports to them; applying MemberRemoved deletes exactly that member's
entry and leaves every other member record — including its reports_to
reference — unchanged, so a remaining member may reference a manager who
is no longer in the organization. -/
theorem claim_C10_remove_member_dangling_manager (ctx : FreshCtx)
    (agg : OrganizationAggregate) (cmd : RemoveMember) :
    (AssocMap.hasKey agg.members cmd.person_id = true →
      (agg.handle_remove_member ctx cmd).1
        = .ok [.MemberRemoved
            { event_id := ctx.fresh_event_id
              identity := cmd.identity
              organization_id := cmd.organization_id
              person_id := cmd.person_id
              reason := cmd.reason
              occurred_at := ctx.now }])
    ∧ (∀ e : MemberRemoved,
        (agg.apply_event_pure (.MemberRemoved e)).members
          = AssocMap.erase agg.members e.person_id
        ∧ AssocMap.find (agg.apply_event_pure (.MemberRemoved e)).members e.person_id
          = none
        ∧ ∀ k, k ≠ e.person_id →
            AssocMap.find (agg.apply_event_pure (.MemberRemoved e)).members k
              = AssocMap.find agg.members k)
    ∧ (∀ b m, AssocMap.hasKey agg.members cmd.person_id = true →
        AssocMap.find agg.members b = some m → b ≠ cmd.person_id →
        AssocMap.find (run_command ctx agg (.RemoveMember cmd)).members b = some m
        ∧ AssocMap.find (run_command ctx agg (.RemoveMember cmd)).members cmd.person_id
          = none) := by
  refine ⟨?_, ?_, ?_⟩
  · intro hk
    simp [OrganizationAggregate.handle_remove_member, hk]
  · intro e
    refine ⟨rfl, ?_, ?_⟩
    · simpa [OrganizationAggregate.apply_event_pure] using
        AssocMap.find_erase_self agg.members e.person_id
    · intro k hk
      simpa [OrganizationAggregate.apply_event_pure] using
        AssocMap.find_erase_ne agg.members e.person_id k hk
  · intro b m hk hb hbne
    have hrun : run_command ctx agg (.RemoveMember cmd)
        = agg.apply_event (.MemberRemoved
            { event_id := ctx.fresh_event_id
              identity := cmd.identity
              organization_id := cmd.organization_id
              person_id := cmd.person_id
              reason := cmd.reason
              occurred_at := ctx.now }) := by
      simp [run_command, OrganizationAggregate.handle_command,
        OrganizationAggregate.handle_remove_member, hk]
    rw [hrun]
    constructor
    · show AssocMap.find (AssocMap.erase agg.members cmd.person_id) b = some m
      rw [AssocMap.find_erase_ne agg.members cmd.person_id b hbne]
      exact hb
    · show AssocMap.find (AssocMap.erase agg.members cmd.person_id) cmd.person_id = none
      exact AssocMap.find_erase_self agg.members cmd.person_id

/-- Closed witness for C10: with member 2 reporting to member 1, removing
member 1 succeeds, member 2 still reports to the departed member 1, and
member 1 is gone. -/
theorem claim_C10_remove_member_dangling_manager_witness :
    (AssocMap.find (run_command ⟨30, 31, 32⟩
        (((OrganizationAggregate.empty 0).apply_event_pure
            (.MemberAdded ⟨1, 2, 3, 1, ⟨"CEO", .Executive, none⟩, none, 5⟩)).apply_event_pure
            (.MemberAdded ⟨6, 2, 3, 2, ⟨"Eng", .Mid, some 1⟩, none, 7⟩))
        (.RemoveMember ⟨8, 3, 1, none⟩)).members 2
      = some ⟨2, 2, ⟨"Eng", .Mid, some 1⟩, none, 7⟩)
    ∧ (AssocMap.find (run_command ⟨30, 31, 32⟩
        (((OrganizationAggregate.empty 0).apply_event_pure
            (.MemberAdded ⟨1, 2, 3, 1, ⟨"CEO", .Executive, none⟩, none, 5⟩)).apply_event_pure
            (.MemberAdded ⟨6, 2, 3, 2, ⟨"Eng", .Mid, some 1⟩, none, 7⟩))
        (.RemoveMember ⟨8, 3, 1, none⟩)).members 1
      = none) := by
  exact (claim_C10_remove_member_dangling_manager ⟨30, 31, 32⟩
      (((OrganizationAggregate.empty 0).apply_event_pure
          (.MemberAdded ⟨1, 2, 3, 1, ⟨"CEO", .Executive, none⟩, none, 5⟩)).apply_event_pure
          (.MemberAdded ⟨6, 2, 3, 2, ⟨"Eng", .Mid, some 1⟩, none, 7⟩))
      ⟨8, 3, 1, none⟩).2.2 2 ⟨2, 2, ⟨"Eng", .Mid, some 1⟩, none, 7⟩
    (by decide) (by decide) (by decide)

/-! Claim C5: cycle detection for reporting-relationship changes. -/

/-- Step lemma: a visited member who is not the subordinate and has a
manager sends the walk one link up. -/
theorem walk_up_found (members : AssocMap Uuid OrganizationMember)
    (sub : Uuid) (fuel : Nat) (cur : Uuid) (vis : List Uuid)
    (member : OrganizationMember)
    (hf : AssocMap.find members cur = some member)
    (hv : cur ∉ vis) (hs : cur ≠ sub) (r : Uuid)
    (hr : member.role.reports_to = some r) :
    OrganizationAggregate.walk_up members sub (fuel + 1) cur vis
      = OrganizationAggregate.walk_up members sub fuel r (cur :: vis) := by
  simp [OrganizationAggregate.walk_up, hf, hv, hs, hr]

/-- Step lemma: reaching the subordinate stops the walk with true. -/
theorem walk_up_found_stop (members : AssocMap Uuid OrganizationMember)
    (sub : Uuid) (fuel : Nat) (cur : Uuid) (vis : List Uuid)
    (member : OrganizationMember)
    (hf : AssocMap.find members cur = some member)
    (hv : cur ∉ vis) (hs : cur = sub) :
    OrganizationAggregate.walk_up members sub (fuel + 1) cur vis = true := by
  subst hs
  simp [OrganizationAggregate.walk_up, hf, hv]

/-- Step lemma: a member with no manager stops the walk with false. -/
theorem walk_up_found_root (members : AssocMap Uuid OrganizationMember)
    (sub : Uuid) (fuel : Nat) (cur : Uuid) (vis : List Uuid)
    (member : OrganizationMember)
    (hf : AssocMap.find members cur = some member)
    (hv : cur ∉ vis) (hs : cur ≠ sub)
    (hr : member.role.reports_to = none) :
    OrganizationAggregate.walk_up members sub (fuel + 1) cur vis = false := by
  simp [OrganizationAggregate.walk_up, hf, hv, hs, hr]

/-- C5: with a reporting chain A reports-to B reports-to C and an
unrelated member D, changing C's manager to A, to B, or to C itself is
rejected with CircularReference (the walk up from the proposed manager
reaches the subordinate), while changing C's manager to D succeeds and
produces exactly the ReportingRelationshipChanged event. -/
theorem claim_C5_circular_reference_rejection (ctx : FreshCtx)
    (agg base : OrganizationAggregate) (a b c d : Uuid)
    (mA mB mC mD : OrganizationMember)
    (hagg : agg = { base with members := [(a, mA), (b, mB), (c, mC), (d, mD)] })
    (hab : a ≠ b) (hac : a ≠ c) (had : a ≠ d)
    (hbc : b ≠ c) (hbd : b ≠ d) (hcd : c ≠ d)
    (hA : mA.role.reports_to = some b) (hB : mB.role.reports_to = some c)
    (hC : mC.role.reports_to = none) (hD : mD.role.reports_to = none)
    (idn : MessageIdentity) (org_id : Uuid) :
    ((agg.handle_change_reporting_relationship ctx ⟨idn, org_id, c, a⟩).1
      = .error (.CircularReference "Cannot create circular reporting relationship"))
    ∧ ((agg.handle_change_reporting_relationship ctx ⟨idn, org_id, c, b⟩).1
      = .error (.CircularReference "Cannot create circular reporting relationship"))
    ∧ ((agg.handle_change_reporting_relationship ctx ⟨idn, org_id, c, c⟩).1
      = .error (.CircularReference "Cannot create circular reporting relationship"))
    ∧ ((agg.handle_change_reporting_relationship ctx ⟨idn, org_id, c, d⟩).1
      = .ok [.ReportingRelationshipChanged
          { event_id := ctx.fresh_event_id
            identity := idn
            organization_id := org_id
            person_id := c
            new_manager_id := some d
            previous_manager_id := none
            occurred_at := ctx.now }]) := by
  subst hagg
  have hfa : AssocMap.find [(a, mA), (b, mB), (c, mC), (d, mD)] a = some mA := by
    simp [AssocMap.find]
  have hfb : AssocMap.find [(a, mA), (b, mB), (c, mC), (d, mD)] b = some mB := by
    simp [AssocMap.find, hab]
  have hfc : AssocMap.find [(a, mA), (b, mB), (c, mC), (d, mD)] c = some mC := by
    simp [AssocMap.find, hac, hbc]
  have hfd : AssocMap.find [(a, mA), (b, mB), (c, mC), (d, mD)] d = some mD := by
    simp [AssocMap.find, had, hbd, hcd]
  have hkc : AssocMap.hasKey [(a, mA), (b, mB), (c, mC), (d, mD)] c = true := by
    simp [AssocMap.hasKey, hfc]
  have hka : AssocMap.hasKey [(a, mA), (b, mB), (c, mC), (d, mD)] a = true := by
    simp [AssocMap.hasKey, hfa]
  have hkb : AssocMap.hasKey [(a, mA), (b, mB), (c, mC), (d, mD)] b = true := by
    simp [AssocMap.hasKey, hfb]
  have hkd : AssocMap.hasKey [(a, mA), (b, mB), (c, mC), (d, mD)] d = true := by
    simp [AssocMap.hasKey, hfd]
  have hwa : ({ base with members := [(a, mA), (b, mB), (c, mC), (d, mD)] }
      : OrganizationAggregate).would_create_circular_reference c a = true := by
    show OrganizationAggregate.walk_up [(a, mA), (b, mB), (c, mC), (d, mD)] c
      (3 + 1 + 1) a [] = true
    rw [walk_up_found _ _ _ a [] mA hfa (by simp) hac b hA]
    rw [walk_up_found _ _ _ b [a] mB hfb (by simp [hab.symm]) hbc c hB]
    exact walk_up_found_stop _ _ 2 c [b, a] mC hfc
      (by simp [hbc.symm, hac.symm]) rfl
  have hwb : ({ base with members := [(a, mA), (b, mB), (c, mC), (d, mD)] }
      : OrganizationAggregate).would_create_circular_reference c b = true := by
    show OrganizationAggregate.walk_up [(a, mA), (b, mB), (c, mC), (d, mD)] c
      (3 + 1 + 1) b [] = true
    rw [walk_up_found _ _ _ b [] mB hfb (by simp) hbc c hB]
    exact walk_up_found_stop _ _ 3 c [b] mC hfc (by simp [hbc.symm]) rfl
  have hwc : ({ base with members := [(a, mA), (b, mB), (c, mC), (d, mD)] }
      : OrganizationAggregate).would_create_circular_reference c c = true := by
    show OrganizationAggregate.walk_up [(a, mA), (b, mB), (c, mC), (d, mD)] c
      (3 + 1 + 1) c [] = true
    exact walk_up_found_stop _ _ (3 + 1) c [] mC hfc (by simp) rfl
  have hwd : ({ base with members := [(a, mA), (b, mB), (c, mC), (d, mD)] }
      : OrganizationAggregate).would_create_circular_reference c d = false := by
    show OrganizationAggregate.walk_up [(a, mA), (b, mB), (c, mC), (d, mD)] c
      (3 + 1 + 1) d [] = false
    exact walk_up_found_root _ _ (3 + 1) d [] mD hfd (by simp)
      (fun h => hcd h.symm) hD
  refine ⟨?_, ?_, ?_, ?_⟩
  · simp [OrganizationAggregate.handle_change_reporting_relationship, hkc, hka, hwa]
  · simp [OrganizationAggregate.handle_change_reporting_relationship, hkc, hkb, hwb]
  · simp [OrganizationAggregate.handle_change_reporting_relationship, hkc, hwc]
  · simp [OrganizationAggregate.handle_change_reporting_relationship, hkc, hkd, hwd,
      hfc, hC]

/-- Closed witness for C5 at members 1 reports-to 2 reports-to 3 and
unrelated member 4: re-parenting 3 under 1 is a CircularReference and
re-parenting 3 under 4 succeeds. -/
theorem claim_C5_circular_reference_rejection_witness :
    ((({ OrganizationAggregate.empty 9 with
          members :=
            [(1, ⟨1, 1, ⟨"E1", .Mid, some 2⟩, none, 0⟩),
             (2, ⟨2, 2, ⟨"E2", .Senior, some 3⟩, none, 0⟩),
             (3, ⟨3, 3, ⟨"CEO", .Executive, none⟩, none, 0⟩),
             (4, ⟨4, 4, ⟨"E4", .Mid, none⟩, none, 0⟩)] }
        : OrganizationAggregate).handle_change_reporting_relationship
        ⟨40, 41, 42⟩ ⟨8, 7, 3, 1⟩).1
      = .error (.CircularReference "Cannot create circular reporting relationship"))
    ∧ ((({ OrganizationAggregate.empty 9 with
          members :=
            [(1, ⟨1, 1, ⟨"E1", .Mid, some 2⟩, none, 0⟩),
             (2, ⟨2, 2, ⟨"E2", .Senior, some 3⟩, none, 0⟩),
             (3, ⟨3, 3, ⟨"CEO", .Executive, none⟩, none, 0⟩),
             (4, ⟨4, 4, ⟨"E4", .Mid, none⟩, none, 0⟩)] }
        : OrganizationAggregate).handle_change_reporting_relationship
        ⟨40, 41, 42⟩ ⟨8, 7, 3, 4⟩).1
      = .ok [.ReportingRelationshipChanged
          { event_id := 40
            identity := 8
            organization_id := 7
            person_id := 3
            new_manager_id := some 4
            previous_manager_id := none
            occurred_at := 42 }]) := by
  have h := claim_C5_circular_reference_rejection ⟨40, 41, 42⟩ _
    (OrganizationAggregate.empty 9) 1 2 3 4
    ⟨1, 1, ⟨"E1", .Mid, some 2⟩, none, 0⟩
    ⟨2, 2, ⟨"E2", .Senior, some 3⟩, none, 0⟩
    ⟨3, 3, ⟨"CEO", .Executive, none⟩, none, 0⟩
    ⟨4, 4, ⟨"E4", .Mid, none⟩, none, 0⟩
    rfl (by decide) (by decide) (by decide) (by decide) (by decide) (by decide)
    rfl rfl rfl rfl 8 7
  exact ⟨h.1, h.2.2.2⟩

/-! Claim C7: single-primary-location invariant. -/

/-- Run a command by evaluating the handler: the success case applies the
returned events. -/
theorem run_command_ok (ctx : FreshCtx) (agg : OrganizationAggregate)
    (cmd : OrganizationCommand) (evs : List OrganizationEvent)
    (h : (agg.handle_command ctx cmd).1 = .ok evs) :
    run_command ctx agg cmd = evs.foldl OrganizationAggregate.apply_event agg := by
  simp [run_command, h]

/-- Run a command by evaluating the handler: the error case leaves the
aggregate unchanged. -/
theorem run_command_err (ctx : FreshCtx) (agg : OrganizationAggregate)
    (cmd : OrganizationCommand) (e : OrganizationError)
    (h : (agg.handle_command ctx cmd).1 = .error e) :
    run_command ctx agg cmd = agg := by
  simp [run_command, h]

/-- Keys of an appended singleton. -/
theorem keyList_append (m : AssocMap κ α) (k : κ) (v : α) :
    AssocMap.keyList (m ++ [(k, v)]) = AssocMap.keyList m ++ [k] := by
  simp [AssocMap.keyList]

/-- A key-preserving value map leaves the key list unchanged. -/
theorem keyList_mapval (m : AssocMap κ α) (f : κ × α → α) :
    AssocMap.keyList (m.map (fun p => (p.1, f p))) = AssocMap.keyList m := by
  simp [AssocMap.keyList, List.map_map]

/-- Entries of the erased map come from the original map and avoid the
erased key. -/
theorem AssocMap.mem_erase [DecidableEq κ] {m : AssocMap κ α} {k : κ} {p : κ × α}
    (hp : p ∈ AssocMap.erase m k) : p ∈ m ∧ p.1 ≠ k := by
  induction m with
  | nil => simp [AssocMap.erase] at hp
  | cons q rest ih =>
    obtain ⟨k₀, v₀⟩ := q
    by_cases h : k₀ = k
    · rw [show AssocMap.erase ((k₀, v₀) :: rest) k = AssocMap.erase rest k
          from by simp [AssocMap.erase, h]] at hp
      obtain ⟨h1, h2⟩ := ih hp
      exact ⟨List.mem_cons_of_mem _ h1, h2⟩
    · rw [show AssocMap.erase ((k₀, v₀) :: rest) k = (k₀, v₀) :: AssocMap.erase rest k
          from by simp [AssocMap.erase, h]] at hp
      rcases List.mem_cons.mp hp with h1 | h1
      · subst h1
        exact ⟨List.mem_cons_self _ _, h⟩
      · obtain ⟨h2, h3⟩ := ih h1
        exact ⟨List.mem_cons_of_mem _ h2, h3⟩

/-- After re-flagging primaries to 'key equals new', exactly one entry is
primary, provided the keys are distinct and the new key is present. -/
theorem pc_after_set_primary (m : AssocMap Uuid OrganizationLocation) (new : Uuid)
    (hnd : (AssocMap.keyList m).Nodup) (hk : AssocMap.hasKey m new = true) :
    ((m.map (fun p => (p.1, { p.2 with is_primary := decide (p.1 = new) }))).filter
        (fun p => p.2.is_primary)).length = 1 := by
  induction m with
  | nil => simp [AssocMap.hasKey, AssocMap.find] at hk
  | cons q rest ih =>
    obtain ⟨k₀, v₀⟩ := q
    rw [AssocMap.hasKey_cons] at hk
    have hcons : (k₀ :: AssocMap.keyList rest).Nodup := by
      simpa only [AssocMap.keyList, List.map_cons] using hnd
    have hout : k₀ ∉ AssocMap.keyList rest := (List.nodup_cons.mp hcons).1
    have hnd' : (AssocMap.keyList rest).Nodup := (List.nodup_cons.mp hcons).2
    by_cases h : k₀ = new
    · subst h
      have hrest : (rest.map (fun p =>
          (p.1, { p.2 with is_primary := decide (p.1 = k₀) }))).filter
            (fun p => p.2.is_primary) = [] := by
        rw [List.filter_eq_nil_iff]
        intro p hp
        obtain ⟨q, hq, rfl⟩ := List.mem_map.mp hp
        simp only [decide_eq_true_eq]
        intro hq1
        exact hout (by
          rw [← hq1]
          exact List.mem_map.mpr ⟨q, hq, rfl⟩)
      simp [hrest]
    · rw [if_neg h] at hk
      have hdec : (decide (k₀ = new)) = false := by simp [h]
      simp [hdec, ih hnd' hk]

/-- The invariant carried through location-command sequences: distinct
location keys and at most one primary location. -/
def LocInv (agg : OrganizationAggregate) : Prop :=
  (AssocMap.keyList agg.locations).Nodup ∧ primary_count agg ≤ 1

/-- Every single location command preserves the single-primary invariant. -/
theorem loc_step_preserves (ctx : FreshCtx) (agg : OrganizationAggregate)
    (lc : LocationCommand) (h : LocInv agg) :
    LocInv (run_command ctx agg lc.toCommand) := by
  obtain ⟨hnd, hpc⟩ := h
  cases lc with
  | add cmd =>
    cases hk : AssocMap.hasKey agg.locations cmd.location_id with
    | true =>
      have herr : (OrganizationAggregate.handle_command ctx agg
          (LocationCommand.add cmd).toCommand).1
          = .error (.DuplicateEntity
              ("Location " ++ toString cmd.location_id ++ " already exists")) := by
        simp [LocationCommand.toCommand, OrganizationAggregate.handle_command,
          OrganizationAggregate.handle_add_location, hk]
      rw [run_command_err ctx agg _ _ herr]
      exact ⟨hnd, hpc⟩
    | false =>
      have hok : (OrganizationAggregate.handle_command ctx agg
          (LocationCommand.add cmd).toCommand).1
          = .ok [.LocationAdded
              { event_id := ctx.fresh_event_id
                identity := cmd.identity
                organization_id := cmd.organization_id
                location_id := cmd.location_id
                name := cmd.name
                address := cmd.address
                is_primary := agg.locations.isEmpty
                occurred_at := ctx.now }] := by
        simp [LocationCommand.toCommand, OrganizationAggregate.handle_command,
          OrganizationAggregate.handle_add_location, hk]
      rw [run_command_ok ctx agg _ _ hok]
      simp only [List.foldl]
      have hknotin : cmd.location_id ∉ AssocMap.keyList agg.locations := by
        intro hmem
        rw [← AssocMap.hasKey_iff_mem] at hmem
        rw [hk] at hmem
        cases hmem
      constructor
      · show (AssocMap.keyList (AssocMap.insert agg.locations cmd.location_id _)).Nodup
        rw [AssocMap.insert_of_not_hasKey _ _ _ hk, keyList_append]
        rw [List.nodup_append]
        refine ⟨hnd, List.nodup_singleton _, ?_⟩
        intro x hx hx'
        rw [List.mem_singleton] at hx'
        subst hx'
        exact hknotin hx
      · show ((AssocMap.insert agg.locations cmd.location_id
            { id := cmd.location_id
              name := cmd.name
              address := cmd.address
              is_primary := agg.locations.isEmpty }).filter
              (fun p => p.2.is_primary)).length ≤ 1
        rw [AssocMap.insert_of_not_hasKey _ _ _ hk, List.filter_append,
          List.length_append]
        cases hmt : agg.locations.isEmpty with
        | true =>
          rw [List.isEmpty_iff] at hmt
          simp [hmt]
        | false =>
          have : primary_count agg ≤ 1 := hpc
          simp only [primary_count] at this
          simpa [hmt] using this
  | changePrimary cmd =>
    cases hk : AssocMap.hasKey agg.locations cmd.location_id with
    | true =>
      have hok : (OrganizationAggregate.handle_command ctx agg
          (LocationCommand.changePrimary cmd).toCommand).1
          = .ok [.PrimaryLocationChanged
              { event_id := ctx.fresh_event_id
                identity := cmd.identity
                organization_id := cmd.organization_id
                new_primary_location_id := cmd.location_id
                previous_primary_location_id :=
                  (agg.locations.find? (·.2.is_primary)).map (·.1)
                occurred_at := ctx.now }] := by
        simp [LocationCommand.toCommand, OrganizationAggregate.handle_command,
          OrganizationAggregate.handle_change_primary_location, hk]
      rw [run_command_ok ctx agg _ _ hok]
      simp only [List.foldl]
      constructor
      · exact (keyList_mapval agg.locations
          (fun p => ({ p.2 with is_primary := decide (p.1 = cmd.location_id) }
            : OrganizationLocation))).symm ▸ hnd
      · exact le_of_eq (pc_after_set_primary agg.locations cmd.location_id hnd hk)
    | false =>
      have herr : (OrganizationAggregate.handle_command ctx agg
          (LocationCommand.changePrimary cmd).toCommand).1
          = .error (.OrganizationNotFound cmd.location_id) := by
        simp [LocationCommand.toCommand, OrganizationAggregate.handle_command,
          OrganizationAggregate.handle_change_primary_location, hk]
      rw [run_command_err ctx agg _ _ herr]
      exact ⟨hnd, hpc⟩
  | remove cmd =>
    cases hk : AssocMap.hasKey agg.locations cmd.location_id with
    | true =>
      have hok : (OrganizationAggregate.handle_command ctx agg
          (LocationCommand.remove cmd).toCommand).1
          = .ok [.LocationRemoved
              { event_id := ctx.fresh_event_id
                identity := cmd.identity
                organization_id := cmd.organization_id
                location_id := cmd.location_id
                occurred_at := ctx.now }] := by
        simp [LocationCommand.toCommand, OrganizationAggregate.handle_command,
          OrganizationAggregate.handle_remove_location, hk]
      rw [run_command_ok ctx agg _ _ hok]
      simp only [List.foldl]
      constructor
      · show (AssocMap.keyList (AssocMap.erase agg.locations cmd.location_id)).Nodup
        exact ((AssocMap.erase_sublist agg.locations cmd.location_id).map _).nodup hnd
      · show ((AssocMap.erase agg.locations cmd.location_id).filter
            (fun p => p.2.is_primary)).length ≤ 1
        calc ((AssocMap.erase agg.locations cmd.location_id).filter
              (fun p => p.2.is_primary)).length
            ≤ (agg.locations.filter (fun p => p.2.is_primary)).length :=
              ((AssocMap.erase_sublist agg.locations cmd.location_id).filter _).length_le
          _ ≤ 1 := hpc
    | false =>
      have herr : (OrganizationAggregate.handle_command ctx agg
          (LocationCommand.remove cmd).toCommand).1
          = .error (.OrganizationNotFound cmd.location_id) := by
        simp [LocationCommand.toCommand, OrganizationAggregate.handle_command,
          OrganizationAggregate.handle_remove_location, hk]
      rw [run_command_err ctx agg _ _ herr]
      exact ⟨hnd, hpc⟩

/-- The invariant holds after any sequence of location commands. -/
theorem run_loc_commands_inv (cmds : List (FreshCtx × LocationCommand))
    (agg : OrganizationAggregate) (h : LocInv agg) :
    LocInv (run_location_commands agg cmds) := by
  induction cmds generalizing agg with
  | nil => exact h
  | cons p rest ih => exact ih _ (loc_step_preserves p.1 agg p.2 h)

/-- C7: starting from an aggregate with no locations, every sequence of
location commands keeps at most one location primary; the first AddLocation
(empty location map) emits its event with is_primary true while an
AddLocation into a non-empty map emits is_primary false; a successful
ChangePrimaryLocation leaves exactly the named location primary; and
removing the location that was the only primary leaves no primary at all
(the code does not reassign). -/
theorem claim_C7_single_primary_location :
    (∀ (agg : OrganizationAggregate), agg.locations = [] →
      ∀ (cmds : List (FreshCtx × LocationCommand)),
        primary_count (run_location_commands agg cmds) ≤ 1)
    ∧ (∀ (ctx : FreshCtx) (agg : OrganizationAggregate) (cmd : AddLocation),
        agg.locations = [] →
        (agg.handle_add_location ctx cmd).1
          = .ok [.LocationAdded
              { event_id := ctx.fresh_event_id
                identity := cmd.identity
                organization_id := cmd.organization_id
                location_id := cmd.location_id
                name := cmd.name
                address := cmd.address
                is_primary := true
                occurred_at := ctx.now }])
    ∧ (∀ (ctx : FreshCtx) (agg : OrganizationAggregate) (cmd : AddLocation),
        agg.locations ≠ [] →
        AssocMap.hasKey agg.locations cmd.location_id = false →
        (agg.handle_add_location ctx cmd).1
          = .ok [.LocationAdded
              { event_id := ctx.fresh_event_id
                identity := cmd.identity
                organization_id := cmd.organization_id
                location_id := cmd.location_id
                name := cmd.name
                address := cmd.address
                is_primary := false
                occurred_at := ctx.now }])
    ∧ (∀ (ctx : FreshCtx) (agg : OrganizationAggregate)
        (cmd : ChangePrimaryLocation) (k : Uuid) (loc : OrganizationLocation),
        AssocMap.hasKey agg.locations cmd.location_id = true →
        AssocMap.find (run_command ctx agg (.ChangePrimaryLocation cmd)).locations k
          = some loc →
        (loc.is_primary = true ↔ k = cmd.location_id))
    ∧ (∀ (ctx : FreshCtx) (agg : OrganizationAggregate) (cmd : RemoveLocation),
        AssocMap.hasKey agg.locations cmd.location_id = true →
        (∀ p ∈ agg.locations, p.2.is_primary = true → p.1 = cmd.location_id) →
        primary_count (run_command ctx agg (.RemoveLocation cmd)) = 0) := by
  refine ⟨?_, ?_, ?_, ?_, ?_⟩
  · intro agg hempty cmds
    have h0 : LocInv agg := by
      constructor
      · rw [hempty]
        exact List.nodup_nil
      · show (agg.locations.filter (fun p => p.2.is_primary)).length ≤ 1
        rw [hempty]
        simp
    exact (run_loc_commands_inv cmds agg h0).2
  · intro ctx agg cmd hempty
    have hk : AssocMap.hasKey agg.locations cmd.location_id = false := by
      rw [hempty]
      rfl
    have hmt : agg.locations.isEmpty = true := by
      rw [hempty]
      rfl
    simp [OrganizationAggregate.handle_add_location, hk, hmt]
  · intro ctx agg cmd hne hk
    have hmt : agg.locations.isEmpty = false := by
      cases h : agg.locations.isEmpty with
      | true => exact absurd (List.isEmpty_iff.mp h) hne
      | false => rfl
    simp [OrganizationAggregate.handle_add_location, hk, hmt]
  · intro ctx agg cmd k loc hk hfind
    have hok : (OrganizationAggregate.handle_command ctx agg
        (.ChangePrimaryLocation cmd)).1
        = .ok [.PrimaryLocationChanged
            { event_id := ctx.fresh_event_id
              identity := cmd.identity
              organization_id := cmd.organization_id
              new_primary_location_id := cmd.location_id
              previous_primary_location_id :=
                (agg.locations.find? (·.2.is_primary)).map (·.1)
              occurred_at := ctx.now }] := by
      simp [OrganizationAggregate.handle_command,
        OrganizationAggregate.handle_change_primary_location, hk]
    rw [run_command_ok ctx agg _ _ hok] at hfind
    simp only [List.foldl] at hfind
    have hfm := AssocMap.find_mapval agg.locations
      (fun p => ({ p.2 with is_primary := decide (p.1 = cmd.location_id) }
        : OrganizationLocation)) k
    have hfind2 : (AssocMap.find agg.locations k).map (fun v =>
        ({ (k, v).2 with is_primary := decide ((k, v).1 = cmd.location_id) }
          : OrganizationLocation)) = some loc := by
      rw [← hfm]
      exact hfind
    cases hfind0 : AssocMap.find agg.locations k with
    | none =>
      rw [hfind0] at hfind2
      cases hfind2
    | some loc0 =>
      rw [hfind0] at hfind2
      simp only [Option.map_some', Option.some.injEq] at hfind2
      subst hfind2
      simp
  · intro ctx agg cmd hk hall
    have hok : (OrganizationAggregate.handle_command ctx agg
        (.RemoveLocation cmd)).1
        = .ok [.LocationRemoved
            { event_id := ctx.fresh_event_id
              identity := cmd.identity
              organization_id := cmd.organization_id
              location_id := cmd.location_id
              occurred_at := ctx.now }] := by
      simp [OrganizationAggregate.handle_command,
        OrganizationAggregate.handle_remove_location, hk]
    rw [run_command_ok ctx agg _ _ hok]
    simp only [List.foldl]
    show ((AssocMap.erase agg.locations cmd.location_id).filter
        (fun p => p.2.is_primary)).length = 0
    rw [List.length_eq_zero]
    rw [List.filter_eq_nil_iff]
    intro p hp
    obtain ⟨hmem, hne⟩ := AssocMap.mem_erase hp
    intro hprim
    exact hne (hall p hmem hprim)

/-- Closed witness for C7: add location 1 (auto-primary), add location 2,
change primary to 2 — after this concrete run exactly one location is
primary and it is location 2; and the first-add event carries
is_primary true. -/
theorem claim_C7_single_primary_location_witness :
    primary_count (run_location_commands (OrganizationAggregate.empty 0)
      [(⟨50, 51, 52⟩, .add ⟨6, 5, 1, "HQ", "A St"⟩),
       (⟨53, 54, 55⟩, .add ⟨6, 5, 2, "Lab", "B St"⟩),
       (⟨56, 57, 58⟩, .changePrimary ⟨6, 5, 2⟩)]) ≤ 1
    ∧ ((OrganizationAggregate.empty 0).handle_add_location ⟨50, 51, 52⟩
        ⟨6, 5, 1, "HQ", "A St"⟩).1
      = .ok [.LocationAdded
          { event_id := 50
            identity := 6
            organization_id := 5
            location_id := 1
            name := "HQ"
            address := "A St"
            is_primary := true
            occurred_at := 52 }] := by
  constructor
  · exact claim_C7_single_primary_location.1 (OrganizationAggregate.empty 0) rfl _
  · exact claim_C7_single_primary_location.2.1 ⟨50, 51, 52⟩
      (OrganizationAggregate.empty 0) ⟨6, 5, 1, "HQ", "A St"⟩ rfl

/-! Claim C1: optimistic concurrency on save. -/

/-- Appending to the event store extends the aggregate's log. -/
theorem events_for_append (store : NatsEventStore) (aggregate_id : Uuid)
    (events : List OrganizationEvent) :
    (store.append_events aggregate_id events).events_for aggregate_id
      = store.events_for aggregate_id ++ events := by
  simp [NatsEventStore.append_events, NatsEventStore.events_for,
    AssocMap.find_insert_self]

/-- Counterexample to C1: two saves whose events were computed from the
same loaded version (version 0 of aggregate 1) both return Ok — the
second is not rejected with any concurrency error and its events are
appended after the first's. The save signature has no expected-version
parameter at all, and the error type has no concurrency-conflict
variant. -/
theorem claim_C1_optimistic_concurrency_counterexample :
    OrganizationRepository.save 0
        { event_store := { log := [] }
          snapshot_store := { snapshots := [] }
          snapshot_frequency := 100 } 1
        [.MemberAdded ⟨1, 2, 3, 4, ⟨"CEO", .Executive, none⟩, none, 5⟩]
      = .ok
        { event_store :=
            { log := [(1, [.MemberAdded ⟨1, 2, 3, 4, ⟨"CEO", .Executive, none⟩, none, 5⟩])] }
          snapshot_store := { snapshots := [] }
          snapshot_frequency := 100 }
    ∧ OrganizationRepository.save 0
        { event_store :=
            { log := [(1, [.MemberAdded ⟨1, 2, 3, 4, ⟨"CEO", .Executive, none⟩, none, 5⟩])] }
          snapshot_store := { snapshots := [] }
          snapshot_frequency := 100 } 1
        [.MemberAdded ⟨6, 2, 3, 7, ⟨"CTO", .Executive, none⟩, none, 8⟩]
      = .ok
        { event_store :=
            { log := [(1,
                [.MemberAdded ⟨1, 2, 3, 4, ⟨"CEO", .Executive, none⟩, none, 5⟩,
                 .MemberAdded ⟨6, 2, 3, 7, ⟨"CTO", .Executive, none⟩, none, 8⟩])] }
          snapshot_store := { snapshots := [] }
          snapshot_frequency := 100 } := by
  exact ⟨rfl, rfl⟩

/-- C1 as amended: the repository save appends the given events to the
aggregate's log unconditionally and always succeeds — there is no
expected-version check, so a save computed from a stale load is accepted
exactly like any other. The in-memory event store used by the command
handler behaves the same way. -/
theorem claim_C1_save_appends_unconditionally :
    (∀ (now : Timestamp) (repo : OrganizationRepository) (aggregate_id : Uuid)
      (events : List OrganizationEvent),
      ∃ repo2, OrganizationRepository.save now repo aggregate_id events = .ok repo2
        ∧ repo2.event_store.events_for aggregate_id
            = repo.event_store.events_for aggregate_id ++ events)
    ∧ (∀ (store : InMemoryEventStore) (aggregate_id : Uuid)
        (events : List OrganizationEvent),
        ∃ store2, store.save_events aggregate_id events = .ok store2
          ∧ store2.load_events aggregate_id
              = .ok ((AssocMap.find store.events aggregate_id).getD [] ++ events)) := by
  constructor
  · intro now repo aggregate_id events
    cases hev : events.isEmpty with
    | true =>
      rw [List.isEmpty_iff] at hev
      subst hev
      exact ⟨repo, by simp [OrganizationRepository.save], by simp⟩
    | false =>
      simp only [OrganizationRepository.save, hev, Bool.false_eq_true, if_false]
      split
      · exact ⟨_, rfl, by
          simpa using events_for_append repo.event_store aggregate_id events⟩
      · exact ⟨_, rfl, by
          simpa using events_for_append repo.event_store aggregate_id events⟩
  · intro store aggregate_id events
    refine ⟨_, rfl, ?_⟩
    simp [InMemoryEventStore.save_events, InMemoryEventStore.load_events,
      AssocMap.find_insert_self]

/-! Claim C6: terminal statuses and the allowed-edge discipline under all
commands. -/

/-- Concrete state reached from the empty aggregate by two successful
handle_command calls: CreateOrganization (status becomes Active), then
DissolveOrganization (status becomes Dissolved). -/
def c6_state_dissolved : OrganizationAggregate :=
  run_command ⟨110, 111, 112⟩
    (run_command ⟨100, 101, 102⟩ (OrganizationAggregate.empty 0)
      (.CreateOrganization ⟨1, "Acme", "Acme", none, .Corporation, none, none, ""⟩))
    (.DissolveOrganization ⟨2, 101, "wound down", 200⟩)

/-- The merge command issued against the dissolved aggregate. -/
def c6_merge_command : OrganizationCommand :=
  .MergeOrganizations ⟨3, 101, 77, .Merger, 300⟩

/-- C6 failing run: the aggregate reaches Dissolved through successful
commands, yet MergeOrganizations still succeeds from Dissolved (its
handler checks only that the organization exists and that the two ids
differ, never the status), and applying the produced OrganizationMerged
event moves the status from the terminal Dissolved to Merged — an edge
is_valid_status_transition itself rejects. -/
theorem claim_C6_terminal_status_bypass :
    c6_state_dissolved.status = .Dissolved
    ∧ (c6_state_dissolved.handle_command ⟨120, 121, 122⟩ c6_merge_command).1
        = .ok [.OrganizationMerged ⟨120, 3, 101, 77, .Merger, 300, 122⟩]
    ∧ (run_command ⟨120, 121, 122⟩ c6_state_dissolved c6_merge_command).status
        = .Merged
    ∧ OrganizationAggregate.is_valid_status_transition .Dissolved .Merged = false := by
  exact ⟨rfl, rfl, rfl, rfl⟩

/-! Claim C8: repository load. -/

/-- C8 failing inputs for OrganizationRepository::get in
src/infrastructure/persistence.rs. With no snapshot, get returns
EntityNotFound without replaying the aggregate's non-empty event log;
with a snapshot at version 1 while the log holds two events, get returns
the snapshot aggregate as-is (version 1) instead of replaying the newer
event on top of it. -/
theorem claim_C8_load_ignores_event_log :
    (OrganizationRepository.get
        { event_store :=
            { log := [(1, [.MemberAdded ⟨1, 2, 3, 4, ⟨"CEO", .Executive, none⟩, none, 5⟩])] }
          snapshot_store := { snapshots := [] }
          snapshot_frequency := 100 } 1
      = .error (.EntityNotFound "Organization 1 not found"))
    ∧ (OrganizationRepository.get
        { event_store :=
            { log := [(1,
                [.MemberAdded ⟨1, 2, 3, 4, ⟨"CEO", .Executive, none⟩, none, 5⟩,
                 .MemberAdded ⟨6, 2, 3, 7, ⟨"CTO", .Executive, none⟩, none, 8⟩])] }
          snapshot_store :=
            { snapshots := [(1,
                { aggregate := (OrganizationAggregate.empty 0).apply_event_pure
                    (.MemberAdded ⟨1, 2, 3, 4, ⟨"CEO", .Executive, none⟩, none, 5⟩)
                  version := 1 })] }
          snapshot_frequency := 100 } 1
      = .ok ((OrganizationAggregate.empty 0).apply_event_pure
          (.MemberAdded ⟨1, 2, 3, 4, ⟨"CEO", .Executive, none⟩, none, 5⟩)))
    ∧ ((OrganizationAggregate.empty 0).apply_event_pure
        (.MemberAdded ⟨1, 2, 3, 4, ⟨"CEO", .Executive, none⟩, none, 5⟩)).version = 1 := by
  exact ⟨rfl, rfl, rfl⟩

end OrgDomain
